import Mathlib

/-!
# OpenGlStart: a call-trace model of `OpenGlStart/OpenGlStart/main.cpp`

The program is one `main` function that talks to two collaborators, the
windowing system (GLFW) and the graphics driver (OpenGL through GLAD), plus
the helper `processInput`.  Neither collaborator is part of the repository,
so each value that the program reads back from them is an oracle, a field of
`Env`.  What the program does is recorded as the ordered list of collaborator
calls it makes (`Call`), with the arguments that the source passes.

* Handles and pointers are natural numbers, `0` being `NULL` / "no object".
* C `int` results are `Int`; `!x` is `x = 0`.
* The source performs no floating-point arithmetic: float literals are only
  handed to the driver, and are kept as the decimal literals of the source.
* The locals `success` and `infoLog` of `main` are declared once, without
  initialiser, and shared by the three status checks.  The driver writes them
  through pointers and may write nothing (as it does for the name 0), so they
  are threaded through the checks as state: a check tests and prints what
  they hold then.
* The frame loop may run forever, so it takes a fuel: the number of times the
  loop condition may be evaluated.  A run that is out of fuel has no return
  code (`ret = none`) and its trace is the prefix made so far.
-/

namespace OpenGlStart

/-! ## Data passed to the collaborators -/

/-- Decimal float literal of the source: `mantissa * 10 ^ (-fracDigits)`, so
`-0.5f` is `⟨-5, 1⟩` and `255.0f` is `⟨2550, 1⟩`. -/
structure FloatLit where
  mantissa : Int
  fracDigits : Nat
deriving DecidableEq, Repr

/-- Enumerators of `glad.h` and `glfw3.h` that `main.cpp` passes as arguments,
kept symbolic. -/
inductive Const
  | GLFW_CONTEXT_VERSION_MAJOR
  | GLFW_CONTEXT_VERSION_MINOR
  | GLFW_OPENGL_PROFILE
  | GLFW_OPENGL_CORE_PROFILE
  | GLFW_KEY_ESCAPE
  | GL_ARRAY_BUFFER
  | GL_STATIC_DRAW
  | GL_VERTEX_SHADER
  | GL_FRAGMENT_SHADER
  | GL_COMPILE_STATUS
  | GL_LINK_STATUS
  | GL_FLOAT
  | GL_FALSE
  | GL_COLOR_BUFFER_BIT
  | GL_TRIANGLES
deriving DecidableEq, Repr

/-- Value argument of `glfwWindowHint`: an integer literal or an enumerator. -/
inductive HintValue
  | lit (n : Int)
  | const (c : Const)
deriving DecidableEq, Repr

/-- The four statements of `main` that write to `std::cout` (lines 51, 90,
103, 116); the three shader ones carry the content of `infoLog` they print. -/
inductive Output
  | gladFailed
  | vertexCompilationFailed (infoLog : List Char)
  | fragmentCompilationFailed (infoLog : List Char)
  | programLinkingFailed (infoLog : List Char)
deriving DecidableEq, Repr

/-- Characters that an output statement writes (`std::endl` is a newline). -/
def Output.text : Output → List Char
  | .gladFailed => "Failed to initialize GLAD\n".toList
  | .vertexCompilationFailed infoLog =>
      "ERROR::SHADER::VERTEX::COMPILATION_FAILED\n".toList ++ infoLog ++ "\n".toList
  | .fragmentCompilationFailed infoLog =>
      "ERROR::SHADER::FRAGMENT::COMPILATION_FAILED\n".toList ++ infoLog ++ "\n".toList
  | .programLinkingFailed infoLog =>
      "ERROR::SHADER::PROGRAM::LINKING_FAILED\n".toList ++ infoLog ++ "\n".toList

/-- The diagnostic text (the printed `infoLog`) of an output statement; the
GLAD message has none. -/
def Output.diagnostic : Output → List Char
  | .gladFailed => []
  | .vertexCompilationFailed infoLog => infoLog
  | .fragmentCompilationFailed infoLog => infoLog
  | .programLinkingFailed infoLog => infoLog

/-- One collaborator call (or write to standard output) made by `main` or
`processInput`, with the arguments of the source.  Out-parameters
(`&VBO`, `&VAO`) are recorded with the handle that the driver wrote. -/
inductive Call
  | glfwInit
  | glfwWindowHint (hint : Const) (value : HintValue)
  | glfwCreateWindow (width height : Nat) (title : String)
  | glfwTerminate
  | glfwMakeContextCurrent (window : Nat)
  | gladLoadGLLoader
  | cout (out : Output)
  | glViewport (x y : Int) (width height : Nat)
  | glGenBuffers (n : Nat) (buffer : Nat)
  | glBindBuffer (target : Const) (buffer : Nat)
  | glBufferData (target : Const) (size : Nat) (data : List FloatLit) (usage : Const)
  | glCreateShader (kind : Const)
  | glShaderSource (shader : Nat) (count : Nat) (source : String)
  | glCompileShader (shader : Nat)
  | glGetShaderiv (shader : Nat) (pname : Const)
  | glGetShaderInfoLog (shader : Nat) (maxLength : Nat)
  | glCreateProgram
  | glAttachShader (program shader : Nat)
  | glLinkProgram (program : Nat)
  | glGetProgramiv (program : Nat) (pname : Const)
  | glGetProgramInfoLog (program : Nat) (maxLength : Nat)
  | glUseProgram (program : Nat)
  | glDeleteShader (shader : Nat)
  | glVertexAttribPointer (index size : Nat) (kind normalized : Const) (stride pointer : Nat)
  | glEnableVertexAttribArray (index : Nat)
  | glGenVertexArrays (n : Nat) (array : Nat)
  | glBindVertexArray (array : Nat)
  | glfwWindowShouldClose (window : Nat)
  | glfwGetKey (window : Nat) (key : Const)
  | glfwSetWindowShouldClose (window : Nat) (value : Int)
  | glClearColor (red green blue alpha : FloatLit)
  | glClear (mask : Const)
  | glDrawArrays (mode : Const) (first count : Nat)
  | glfwSwapBuffers (window : Nat)
  | glfwPollEvents
  | glDeleteVertexArrays (n : Nat) (array : Nat)
  | glDeleteBuffers (n : Nat) (buffer : Nat)
  | glDeleteProgram (program : Nat)
deriving DecidableEq, Repr

/-! ## The collaborators as oracles -/

/-- Everything the program reads back from the windowing system and the
graphics driver during one run. -/
structure Env where
  /-- result of `glfwInit()` (line 28) -/
  glfwInit : Int
  /-- pointer returned by `glfwCreateWindow` (line 38), `0` for `NULL` -/
  window : Nat
  /-- result of `gladLoadGLLoader` (line 49) -/
  gladLoadGLLoader : Int
  /-- name written to `VBO` by `glGenBuffers` (line 67) -/
  VBO : Nat
  /-- result of `glCreateShader(GL_VERTEX_SHADER)` (line 77) -/
  vertexShader : Nat
  /-- value written to `success` by `glGetShaderiv` (line 85); `none` when the
  driver writes nothing, as it does for a name that is no shader object -/
  vertexStatus : Option Int
  /-- information log that `glGetShaderInfoLog` (line 89) copies from; `none`
  when the driver writes nothing to `infoLog` -/
  vertexLog : Option (List Char)
  /-- result of `glCreateShader(GL_FRAGMENT_SHADER)` (line 95) -/
  fragmentShader : Nat
  /-- value written to `success` by `glGetShaderiv` (line 99); `none` when the
  driver writes nothing -/
  fragmentStatus : Option Int
  /-- information log that `glGetShaderInfoLog` (line 102) copies from; `none`
  when the driver writes nothing to `infoLog` -/
  fragmentLog : Option (List Char)
  /-- result of `glCreateProgram()` (line 108) -/
  shaderProgram : Nat
  /-- value written to `success` by `glGetProgramiv` (line 113); `none` when
  the driver writes nothing -/
  linkStatus : Option Int
  /-- information log that `glGetProgramInfoLog` (line 115) copies from; `none`
  when the driver writes nothing to `infoLog` -/
  programLog : Option (List Char)
  /-- name written to `VAO` by `glGenVertexArrays` (line 134) -/
  VAO : Nat
  /-- value of the uninitialised local `success` (line 83) -/
  successInit : Int
  /-- text that printing the uninitialised local `infoLog` (line 84) gives -/
  infoLogInit : List Char
  /-- result of `glfwGetKey(window, GLFW_KEY_ESCAPE)` in iteration `i` -/
  keyEscape : Nat → Int
  /-- effect of `glfwPollEvents()` of iteration `i` on the close-request flag
  of the window: the flag before the call is mapped to the flag after it -/
  pollEvents : Nat → Bool → Bool

/-- `GLFW_PRESS` of `glfw3.h`. -/
def GLFW_PRESS : Int := 1

/-- The `true` that `processInput` passes to `glfwSetWindowShouldClose`,
converted to `int`. -/
def cTrue : Int := 1

/-- What `glGetShaderInfoLog` / `glGetProgramInfoLog` store in the caller's
buffer when told that it has room for `maxLength` characters: the driver's log
cut so that it fits together with the terminating NUL. -/
def glGetInfoLog (maxLength : Nat) (driverLog : List Char) : List Char :=
  driverLog.take (maxLength - 1)

/-! ## Constants of the source -/

/-- Line 9: `vertexShaderSource`, the C string up to its first NUL. -/
def vertexShaderSource : String :=
  "#version 450 core\n" ++
  "layout (location = 0) in vec3 aPos;\n" ++
  "void main()\n" ++
  "\x7b\n" ++
  "   gl_Position = vec4(aPos.x, aPos.y, aPos.z, 1.0);\n" ++
  "\x7d"

/-- Line 16: `fragmentShaderSource`, the C string up to its first NUL. -/
def fragmentShaderSource : String :=
  "#version 450 core\n" ++
  "out vec4 FragColor;\n" ++
  "void main()\n" ++
  "\x7b\n" ++
  "   FragColor = vec4(1.0f, 0.5f, 0.2f, 1.0f);\n" ++
  "\x7d\n"

/-- Lines 60-64: `float vertices[]`. -/
def vertices : List FloatLit :=
  [⟨-5, 1⟩, ⟨-5, 1⟩, ⟨0, 1⟩,
   ⟨5, 1⟩, ⟨-5, 1⟩, ⟨0, 1⟩,
   ⟨0, 1⟩, ⟨5, 1⟩, ⟨0, 1⟩]

/-- `sizeof(float)`. -/
def sizeofFloat : Nat := 4

/-- `sizeof(vertices)`. -/
def sizeofVertices : Nat := vertices.length * sizeofFloat

/-- Size of the local `char infoLog[512]` (line 84). -/
def infoLogSize : Nat := 512

/-- Number of position components per vertex, the `size` argument of
`glVertexAttribPointer` (lines 126, 142). -/
def componentsPerVertex : Nat := 3

/-- Number of vertices held by `vertices`. -/
def vertexCount : Nat := vertices.length / componentsPerVertex

/-! ## The program -/

/-- Locals of `main` that are shared by the three status checks (lines 83-84):
the flag `success` and the text held by the buffer `infoLog`.  Both are
declared without initialiser and are only changed by what the driver writes
through the pointers it is given. -/
structure Locals where
  success : Int
  infoLog : List Char

/-- A query `glGet...iv(…, &success)`: the driver's value when it writes one,
otherwise `success` keeps what it held. -/
def writeStatus (written : Option Int) (l : Locals) : Locals :=
  match written with
  | some v => ⟨v, l.infoLog⟩
  | none => l

/-- A retrieval `glGet...InfoLog(…, 512, NULL, infoLog)`: the driver's log cut
to the buffer when it writes one, otherwise `infoLog` keeps what it held. -/
def writeInfoLog (maxLength : Nat) (written : Option (List Char)) (l : Locals) : Locals :=
  match written with
  | some driverLog => ⟨l.success, glGetInfoLog maxLength driverLog⟩
  | none => l

/-- Lines 28-38: initialisation of GLFW, the window hints and the creation of
the window. -/
def windowCalls : List Call :=
  [ .glfwInit,
    .glfwWindowHint .GLFW_CONTEXT_VERSION_MAJOR (.lit 4),
    .glfwWindowHint .GLFW_CONTEXT_VERSION_MINOR (.lit 5),
    .glfwWindowHint .GLFW_OPENGL_PROFILE (.const .GLFW_OPENGL_CORE_PROFILE),
    .glfwCreateWindow 800 600 "Hello World" ]

/-- Lines 55-69: viewport, then creation, binding and filling of `VBO`. -/
def bufferCalls (env : Env) : List Call :=
  [ .glViewport 0 0 800 600,
    .glGenBuffers 1 env.VBO,
    .glBindBuffer .GL_ARRAY_BUFFER env.VBO,
    .glBufferData .GL_ARRAY_BUFFER sizeofVertices vertices .GL_STATIC_DRAW ]

/-- Lines 76-91: the vertex shader is created, compiled and checked; `l` is
the state of the shared locals on entry. -/
def vertexShaderBlock (env : Env) (l : Locals) : List Call × Locals :=
  let calls : List Call :=
    [ .glCreateShader .GL_VERTEX_SHADER,
      .glShaderSource env.vertexShader 1 vertexShaderSource,
      .glCompileShader env.vertexShader,
      .glGetShaderiv env.vertexShader .GL_COMPILE_STATUS ]
  let l1 := writeStatus env.vertexStatus l
  if l1.success = 0 then
    let l2 := writeInfoLog infoLogSize env.vertexLog l1
    (calls ++ [ .glGetShaderInfoLog env.vertexShader infoLogSize,
                .cout (.vertexCompilationFailed l2.infoLog) ], l2)
  else
    (calls, l1)

/-- Lines 94-104: the fragment shader is created, compiled and checked; `l` is
the state of the shared locals on entry. -/
def fragmentShaderBlock (env : Env) (l : Locals) : List Call × Locals :=
  let calls : List Call :=
    [ .glCreateShader .GL_FRAGMENT_SHADER,
      .glShaderSource env.fragmentShader 1 fragmentShaderSource,
      .glCompileShader env.fragmentShader,
      .glGetShaderiv env.fragmentShader .GL_COMPILE_STATUS ]
  let l1 := writeStatus env.fragmentStatus l
  if l1.success = 0 then
    let l2 := writeInfoLog infoLogSize env.fragmentLog l1
    (calls ++ [ .glGetShaderInfoLog env.fragmentShader infoLogSize,
                .cout (.fragmentCompilationFailed l2.infoLog) ], l2)
  else
    (calls, l1)

/-- Lines 107-117: the program is created, the shaders attached, the program
linked and the link checked; `l` is the state of the shared locals on entry. -/
def programBlock (env : Env) (l : Locals) : List Call × Locals :=
  let calls : List Call :=
    [ .glCreateProgram,
      .glAttachShader env.shaderProgram env.vertexShader,
      .glAttachShader env.shaderProgram env.fragmentShader,
      .glLinkProgram env.shaderProgram,
      .glGetProgramiv env.shaderProgram .GL_LINK_STATUS ]
  let l1 := writeStatus env.linkStatus l
  if l1.success = 0 then
    let l2 := writeInfoLog infoLogSize env.programLog l1
    (calls ++ [ .glGetProgramInfoLog env.shaderProgram infoLogSize,
                .cout (.programLinkingFailed l2.infoLog) ], l2)
  else
    (calls, l1)

/-- Lines 119-121: the program is made current and the shaders are deleted. -/
def postLinkCalls (env : Env) : List Call :=
  [ .glUseProgram env.shaderProgram,
    .glDeleteShader env.vertexShader,
    .glDeleteShader env.fragmentShader ]

/-- Lines 126-143: the vertex attribute, then `VAO` with the buffer bound and
filled and the attribute set once more. -/
def layoutCalls (env : Env) : List Call :=
  [ .glVertexAttribPointer 0 componentsPerVertex .GL_FLOAT .GL_FALSE
      (componentsPerVertex * sizeofFloat) 0,
    .glEnableVertexAttribArray 0,
    .glGenVertexArrays 1 env.VAO,
    .glBindVertexArray env.VAO,
    .glBindBuffer .GL_ARRAY_BUFFER env.VBO,
    .glBufferData .GL_ARRAY_BUFFER sizeofVertices vertices .GL_STATIC_DRAW,
    .glVertexAttribPointer 0 componentsPerVertex .GL_FLOAT .GL_FALSE
      (componentsPerVertex * sizeofFloat) 0,
    .glEnableVertexAttribArray 0 ]

/-- Lines 83-84: the shared locals as declared, not initialised. -/
def localsInit (env : Env) : Locals :=
  ⟨env.successInit, env.infoLogInit⟩

/-- The shared locals after the check of the vertex shader (line 91). -/
def localsAfterVertex (env : Env) : Locals :=
  (vertexShaderBlock env (localsInit env)).2

/-- The shared locals after the check of the fragment shader (line 104). -/
def localsAfterFragment (env : Env) : Locals :=
  (fragmentShaderBlock env (localsAfterVertex env)).2

/-- The shared locals after the check of the link (line 117). -/
def localsAfterLink (env : Env) : Locals :=
  (programBlock env (localsAfterFragment env)).2

/-- Lines 75-117: the three checked steps in sequence, each entered with the
shared locals as the step before left them. -/
def shaderCalls (env : Env) : List Call :=
  (vertexShaderBlock env (localsInit env)).1
    ++ (fragmentShaderBlock env (localsAfterVertex env)).1
    ++ (programBlock env (localsAfterFragment env)).1

/-- Lines 55-143: everything between the GLAD check and the frame loop. -/
def setupCalls (env : Env) : List Call :=
  bufferCalls env ++ shaderCalls env ++ postLinkCalls env ++ layoutCalls env

/-- Lines 180-184: `processInput` in iteration `i`, with the close-request
flag of the window before the call; returns the calls made and the flag
after. -/
def processInput (env : Env) (i : Nat) (shouldClose : Bool) : List Call × Bool :=
  if env.keyEscape i = GLFW_PRESS then
    ([ .glfwGetKey env.window .GLFW_KEY_ESCAPE,
       .glfwSetWindowShouldClose env.window cTrue ], true)
  else
    ([ .glfwGetKey env.window .GLFW_KEY_ESCAPE ], shouldClose)

/-- Lines 153-166: the rest of the loop body after `processInput`. -/
def renderCalls (env : Env) : List Call :=
  [ .glClearColor ⟨2550, 1⟩ ⟨2550, 1⟩ ⟨0, 1⟩ ⟨10, 1⟩,
    .glClear .GL_COLOR_BUFFER_BIT,
    .glUseProgram env.shaderProgram,
    .glBindVertexArray env.VAO,
    .glDrawArrays .GL_TRIANGLES 0 6,
    .glfwSwapBuffers env.window,
    .glfwPollEvents ]

/-- Lines 148-167: one execution of the loop body, iteration `i`, entered
with close-request flag `shouldClose`; returns the calls made and the flag
after `glfwPollEvents`. -/
def loopBody (env : Env) (i : Nat) (shouldClose : Bool) : List Call × Bool :=
  let p := processInput env i shouldClose
  (p.1 ++ renderCalls env, env.pollEvents i p.2)

/-- Outcome of the frame loop: the calls of each executed iteration (without
the evaluation of the loop condition that admitted it), and whether the loop
was left (the condition was evaluated and found the close-request set). -/
structure LoopRun where
  iterations : List (List Call)
  exited : Bool

/-- Lines 147-167: the `while (!glfwWindowShouldClose(window))` loop, from
iteration index `i` and close-request flag `shouldClose`; `fuel` bounds the
number of evaluations of the loop condition. -/
def frameLoop (env : Env) : Nat → Nat → Bool → LoopRun
  | 0, _, _ => ⟨[], false⟩
  | fuel + 1, i, shouldClose =>
    if shouldClose then ⟨[], true⟩
    else
      let b := loopBody env i shouldClose
      let r := frameLoop env fuel (i + 1) b.2
      ⟨b.1 :: r.iterations, r.exited⟩

/-- The calls of a loop run in order: each iteration is preceded by the
evaluation of the loop condition, and a loop that was left ends with the
evaluation that found the close-request set. -/
def loopTrace (env : Env) (r : LoopRun) : List Call :=
  (r.iterations.map (fun body => Call.glfwWindowShouldClose env.window :: body)).flatten
    ++ (if r.exited then [Call.glfwWindowShouldClose env.window] else [])

/-- Lines 171-176: the releases after the loop and `glfwTerminate`. -/
def teardownCalls (env : Env) : List Call :=
  [ .glDeleteVertexArrays 1 env.VAO,
    .glDeleteBuffers 1 env.VBO,
    .glDeleteProgram env.shaderProgram,
    .glfwTerminate ]

/-- A run of `main`: the calls made, and the value returned (`none` while the
frame loop is still running when the fuel is used up). -/
structure Run where
  trace : List Call
  ret : Option Int

/-- Lines 46-49: the context is made current and GLAD loads the driver's
functions. -/
def contextCalls (env : Env) : List Call :=
  [ .glfwMakeContextCurrent env.window, .gladLoadGLLoader ]

/-- Lines 23-178: `main`.  A new window has its close-request flag clear. -/
def main (fuel : Nat) (env : Env) : Run :=
  if env.glfwInit = 0 then
    ⟨[.glfwInit], some (-1)⟩
  else if env.window = 0 then
    ⟨windowCalls ++ [.glfwTerminate], some (-1)⟩
  else if env.gladLoadGLLoader = 0 then
    ⟨windowCalls ++ contextCalls env ++ [.cout .gladFailed], some (-1)⟩
  else
    let r := frameLoop env fuel 0 false
    ⟨windowCalls ++ contextCalls env ++ setupCalls env ++ loopTrace env r
      ++ (if r.exited then teardownCalls env else []),
     if r.exited then some 0 else none⟩

/-- Close-request flag seen by the `n`-th later evaluation of the loop
condition, when the loop is at iteration `i` with flag `shouldClose` and
every iteration in between is executed. -/
def shouldCloseFrom (env : Env) : Nat → Nat → Bool → Bool
  | 0, _, shouldClose => shouldClose
  | n + 1, i, shouldClose => shouldCloseFrom env n (i + 1) (loopBody env i shouldClose).2

/-- Close-request flag at the `n`-th evaluation of the loop condition in
`main` (the first one is number `0`). -/
def shouldCloseAt (env : Env) (n : Nat) : Bool :=
  shouldCloseFrom env n 0 false

/-- Characters written to standard output by a trace. -/
def stdout (t : List Call) : List Char :=
  (t.filterMap (fun c => match c with
    | .cout o => some o.text
    | _ => none)).flatten

/-! ## Kinds of calls -/

/-- Retrieval of an information log, or the print of one: lines 89-90,
102-103 and 115-116. -/
def isDiagnostic : Call → Bool
  | .glGetShaderInfoLog _ _ => true
  | .glGetProgramInfoLog _ _ => true
  | .cout (.vertexCompilationFailed _) => true
  | .cout (.fragmentCompilationFailed _) => true
  | .cout (.programLinkingFailed _) => true
  | _ => false

/-- Release of a resource that is alive during the loop: the vertex array, the
buffer, the program. -/
def isRelease : Call → Bool
  | .glDeleteVertexArrays _ _ => true
  | .glDeleteBuffers _ _ => true
  | .glDeleteProgram _ => true
  | _ => false

/-- The shader handle that a call takes as argument, if it takes one. -/
def shaderArg : Call → Option Nat
  | .glShaderSource shader _ _ => some shader
  | .glCompileShader shader => some shader
  | .glGetShaderiv shader _ => some shader
  | .glGetShaderInfoLog shader _ => some shader
  | .glAttachShader _ shader => some shader
  | .glDeleteShader shader => some shader
  | _ => none

/-- The shader handle that a call releases, if it releases one. -/
def deletedShader : Call → Option Nat
  | .glDeleteShader shader => some shader
  | _ => none

/-- The call releases a shader or a program. -/
def isShaderOrProgramDelete : Call → Bool
  | .glDeleteShader _ => true
  | .glDeleteProgram _ => true
  | _ => false

/-- What a call writes to standard output, if it is an output statement. -/
def printed : Call → Option Output
  | .cout o => some o
  | _ => none

/-- Retrievals of an information log from the driver. -/
def isLogRetrieval : Call → Bool
  | .glGetShaderInfoLog _ _ => true
  | .glGetProgramInfoLog _ _ => true
  | _ => false

/-- Draw calls. -/
def isDraw : Call → Bool
  | .glDrawArrays _ _ _ => true
  | _ => false

/-- The number of vertices that a draw call requests. -/
def drawCount : Call → Option Nat
  | .glDrawArrays _ _ count => some count
  | _ => none

/-- The floats that an upload hands to the driver. -/
def uploadedFloats : Call → Option (List FloatLit)
  | .glBufferData _ _ data _ => some data
  | _ => none

/-- Clear calls. -/
def isClear : Call → Bool
  | .glClear _ => true
  | _ => false

/-- Buffer uploads. -/
def isUpload : Call → Bool
  | .glBufferData _ _ _ _ => true
  | _ => false

/-- Evaluations of the loop condition. -/
def isLoopCondition : Call → Bool
  | .glfwWindowShouldClose _ => true
  | _ => false

/-- Calls that build shaders or the program (lines 75-121), and calls of the
frame loop (lines 147-167). -/
def isShaderOrLoopCall : Call → Bool
  | .glCreateShader _ => true
  | .glShaderSource _ _ _ => true
  | .glCompileShader _ => true
  | .glGetShaderiv _ _ => true
  | .glGetShaderInfoLog _ _ => true
  | .glCreateProgram => true
  | .glAttachShader _ _ => true
  | .glLinkProgram _ => true
  | .glGetProgramiv _ _ => true
  | .glGetProgramInfoLog _ _ => true
  | .glUseProgram _ => true
  | .glDeleteShader _ => true
  | .glfwWindowShouldClose _ => true
  | .glfwGetKey _ _ => true
  | .glfwSetWindowShouldClose _ _ => true
  | .glClearColor _ _ _ _ => true
  | .glClear _ => true
  | .glBindVertexArray _ => true
  | .glDrawArrays _ _ _ => true
  | .glfwSwapBuffers _ => true
  | .glfwPollEvents => true
  | _ => false

/-! ## Concrete environments -/

/-- Everything succeeds, Escape is never pressed, and the user closes the
window during iteration 1. -/
def envClose : Env where
  glfwInit := 1
  window := 7
  gladLoadGLLoader := 1
  VBO := 1
  vertexShader := 1
  vertexStatus := some 1
  vertexLog := some []
  fragmentShader := 2
  fragmentStatus := some 1
  fragmentLog := some []
  shaderProgram := 3
  linkStatus := some 1
  programLog := some []
  VAO := 1
  successInit := 0
  infoLogInit := []
  keyEscape := fun _ => 0
  pollEvents := fun i b => b || decide (i = 1)

/-- Everything succeeds, Escape is held down from the first iteration on, and
the windowing system itself never changes the close-request. -/
def envEscape : Env where
  glfwInit := 1
  window := 7
  gladLoadGLLoader := 1
  VBO := 1
  vertexShader := 1
  vertexStatus := some 1
  vertexLog := some []
  fragmentShader := 2
  fragmentStatus := some 1
  fragmentLog := some []
  shaderProgram := 3
  linkStatus := some 1
  programLog := some []
  VAO := 1
  successInit := 0
  infoLogInit := []
  keyEscape := fun _ => GLFW_PRESS
  pollEvents := fun _ b => b

/-- The environment `envClose` with `glfwInit` failing. -/
def envInitFails : Env := { envClose with glfwInit := 0 }

/-- The environment `envClose` with `glfwCreateWindow` returning `NULL`. -/
def envNoWindow : Env := { envClose with window := 0 }

/-- The environment `envClose` with `gladLoadGLLoader` failing. -/
def envNoGlad : Env := { envClose with gladLoadGLLoader := 0 }

/-- The environment `envClose` with a vertex shader that does not compile and
a driver log of 600 characters, and a link that fails with an empty log. -/
def envBadVertex : Env :=
  { envClose with
    vertexStatus := some 0
    vertexLog := some (List.replicate 600 (Char.ofNat 101))
    linkStatus := some 0 }

/-- The environment `envClose` with a vertex shader that does not compile, with
driver log `abc`, and no fragment shader object: `glCreateShader` returns 0
for it, and the driver writes neither a status nor a log for the name 0. -/
def envNoFragment : Env :=
  { envClose with
    vertexStatus := some 0
    vertexLog := some "abc".toList
    fragmentShader := 0
    fragmentStatus := none
    fragmentLog := none }

/-! ## Lemmas on the frame loop -/

theorem frameLoop_closed (env : Env) (fuel i : Nat) :
    frameLoop env (fuel + 1) i true = ⟨[], true⟩ := by
  simp [frameLoop]

theorem frameLoop_open (env : Env) (fuel i : Nat) :
    frameLoop env (fuel + 1) i false =
      ⟨(loopBody env i false).1 :: (frameLoop env fuel (i + 1) (loopBody env i false).2).iterations,
       (frameLoop env fuel (i + 1) (loopBody env i false).2).exited⟩ := by
  simp [frameLoop]

/-- No iteration runs when the close-request is set at the loop condition. -/
theorem frameLoop_iterations_of_set (env : Env) (fuel i : Nat) :
    (frameLoop env fuel i true).iterations = [] := by
  cases fuel <;> simp [frameLoop]

/-- The calls of the `k`-th executed iteration are those of the loop body at
that index, entered with the close-request clear. -/
theorem frameLoop_iteration_eq (env : Env) (fuel : Nat) :
    ∀ (i : Nat) (b : Bool) (k : Nat) (it : List Call),
      (frameLoop env fuel i b).iterations[k]? = some it →
        it = (loopBody env (i + k) false).1 := by
  induction fuel with
  | zero => intro i b k it h; simp [frameLoop] at h
  | succ n ih =>
    intro i b k it h
    cases b with
    | true => simp [frameLoop] at h
    | false =>
      rw [frameLoop_open] at h
      cases k with
      | zero => simpa using h.symm
      | succ k =>
        have h2 := ih (i + 1) _ k it (by simpa using h)
        rw [h2]
        congr 2
        omega

/-- Enough fuel: the loop is left once the close-request is seen set. -/
theorem frameLoop_exited (env : Env) (k : Nat) :
    ∀ (fuel i : Nat) (b : Bool), shouldCloseFrom env k i b = true → k < fuel →
      (frameLoop env fuel i b).exited = true := by
  induction k with
  | zero =>
    intro fuel i b h hk
    simp [shouldCloseFrom] at h
    subst h
    obtain ⟨m, rfl⟩ : ∃ m, fuel = m + 1 := ⟨fuel - 1, by omega⟩
    simp [frameLoop]
  | succ k ih =>
    intro fuel i b h hk
    obtain ⟨m, rfl⟩ : ∃ m, fuel = m + 1 := ⟨fuel - 1, by omega⟩
    cases b with
    | true => simp [frameLoop]
    | false =>
      rw [frameLoop_open]
      exact ih m (i + 1) _ (by simpa [shouldCloseFrom] using h) (by omega)

/-- Every call of a loop body is one of the nine calls of lines 150-166. -/
theorem mem_loopBody (env : Env) (i : Nat) (b : Bool) (c : Call)
    (h : c ∈ (loopBody env i b).1) :
    c ∈ Call.glfwGetKey env.window .GLFW_KEY_ESCAPE ::
        Call.glfwSetWindowShouldClose env.window cTrue :: renderCalls env := by
  unfold loopBody processInput at h
  split at h <;> simp at h ⊢ <;> tauto

theorem loopTrace_zero (env : Env) (i : Nat) (b : Bool) :
    loopTrace env (frameLoop env 0 i b) = [] := by
  simp [loopTrace, frameLoop]

theorem loopTrace_closed (env : Env) (fuel i : Nat) :
    loopTrace env (frameLoop env (fuel + 1) i true) = [.glfwWindowShouldClose env.window] := by
  simp [loopTrace, frameLoop]

theorem loopTrace_open (env : Env) (fuel i : Nat) :
    loopTrace env (frameLoop env (fuel + 1) i false) =
      Call.glfwWindowShouldClose env.window :: (loopBody env i false).1
        ++ loopTrace env (frameLoop env fuel (i + 1) (loopBody env i false).2) := by
  rw [frameLoop_open]
  simp [loopTrace]

/-- Every call made by the loop is the loop condition or a call of the body. -/
theorem mem_loopTrace (env : Env) (fuel : Nat) :
    ∀ (i : Nat) (b : Bool) (c : Call), c ∈ loopTrace env (frameLoop env fuel i b) →
      c ∈ Call.glfwWindowShouldClose env.window ::
          Call.glfwGetKey env.window .GLFW_KEY_ESCAPE ::
          Call.glfwSetWindowShouldClose env.window cTrue :: renderCalls env := by
  induction fuel with
  | zero => intro i b c h; simp [loopTrace_zero] at h
  | succ n ih =>
    intro i b c h
    cases b with
    | true =>
      rw [loopTrace_closed] at h
      simp at h
      simp [h]
    | false =>
      rw [loopTrace_open] at h
      simp only [List.cons_append, List.mem_cons, List.mem_append] at h
      rcases h with h | h | h
      · simp [h]
      · exact List.mem_cons_of_mem _ (mem_loopBody env i false c h)
      · exact ih _ _ c h

/-- A kind of call that is none of the loop's calls does not occur in the
loop. -/
theorem filter_loopTrace_eq_nil (env : Env) (fuel i : Nat) (b : Bool) (p : Call → Bool)
    (hp : ∀ c ∈ Call.glfwWindowShouldClose env.window ::
          Call.glfwGetKey env.window .GLFW_KEY_ESCAPE ::
          Call.glfwSetWindowShouldClose env.window cTrue :: renderCalls env, p c = false) :
    (loopTrace env (frameLoop env fuel i b)).filter p = [] := by
  rw [List.filter_eq_nil_iff]
  intro c hc
  simp [hp c (mem_loopTrace env fuel i b c hc)]

/-- A projection that is defined on none of the loop's calls gives nothing on
the loop. -/
theorem filterMap_loopTrace_eq_nil {α : Type} (env : Env) (fuel i : Nat) (b : Bool)
    (f : Call → Option α)
    (hf : ∀ c ∈ Call.glfwWindowShouldClose env.window ::
          Call.glfwGetKey env.window .GLFW_KEY_ESCAPE ::
          Call.glfwSetWindowShouldClose env.window cTrue :: renderCalls env, f c = none) :
    (loopTrace env (frameLoop env fuel i b)).filterMap f = [] := by
  rw [List.filterMap_eq_nil_iff]
  intro c hc
  exact hf c (mem_loopTrace env fuel i b c hc)

/-- The run of `main` once GLFW, the window and GLAD are there. -/
theorem main_of_init (env : Env) (fuel : Nat) (h1 : env.glfwInit ≠ 0) (h2 : env.window ≠ 0)
    (h3 : env.gladLoadGLLoader ≠ 0) :
    main fuel env =
      ⟨windowCalls ++ contextCalls env ++ setupCalls env
          ++ loopTrace env (frameLoop env fuel 0 false)
          ++ (if (frameLoop env fuel 0 false).exited then teardownCalls env else []),
       if (frameLoop env fuel 0 false).exited then some 0 else none⟩ := by
  simp [main, h1, h2, h3]

/-- A close-request seen set at the `n`-th later evaluation of the loop
condition bounds the number of iterations by `n`. -/
theorem frameLoop_length_le_of_close (env : Env) (n : Nat) :
    ∀ (fuel i : Nat) (b : Bool), shouldCloseFrom env n i b = true →
      (frameLoop env fuel i b).iterations.length ≤ n := by
  induction n with
  | zero =>
    intro fuel i b h
    simp [shouldCloseFrom] at h
    subst h
    simp [frameLoop_iterations_of_set]
  | succ n ih =>
    intro fuel i b h
    cases fuel with
    | zero => simp [frameLoop]
    | succ m =>
      cases b with
      | true => simp [frameLoop]
      | false =>
        rw [frameLoop_open]
        have := ih m (i + 1) _ (by simpa [shouldCloseFrom] using h)
        simpa using this

/-- When the windowing system keeps a set close-request, the iteration in which
`processInput` sees Escape pressed is the last one. -/
theorem frameLoop_escape_last (env : Env) (hkeep : ∀ i, env.pollEvents i true = true)
    (fuel : Nat) :
    ∀ (i : Nat) (b : Bool) (k : Nat), k < (frameLoop env fuel i b).iterations.length →
      env.keyEscape (i + k) = GLFW_PRESS →
        (frameLoop env fuel i b).iterations.length = k + 1 ∧
          (k + 1 < fuel → (frameLoop env fuel i b).exited = true) := by
  induction fuel with
  | zero => intro i b k hk; simp [frameLoop] at hk
  | succ m ih =>
    intro i b k hk hkey
    cases b with
    | true => simp [frameLoop] at hk
    | false =>
      rw [frameLoop_open] at hk ⊢
      cases k with
      | zero =>
        have hflag : (loopBody env i false).2 = true := by
          simp at hkey
          simp [loopBody, processInput, hkey, hkeep]
        rw [hflag]
        refine ⟨by simp [frameLoop_iterations_of_set], fun hf => ?_⟩
        obtain ⟨m', rfl⟩ : ∃ m', m = m' + 1 := ⟨m - 1, by omega⟩
        simp [frameLoop]
      | succ k =>
        have hkey' : env.keyEscape (i + 1 + k) = GLFW_PRESS := by
          rw [← hkey]; congr 1; omega
        have := ih (i + 1) _ k (by simpa using hk) hkey'
        refine ⟨by simpa using this.1, fun hf => ?_⟩
        exact this.2 (by omega)

/-- A kind of call that covers all of the loop's calls is not filtered out of
the loop. -/
theorem filter_loopTrace_eq_self (env : Env) (fuel i : Nat) (b : Bool) (p : Call → Bool)
    (hp : ∀ c ∈ Call.glfwWindowShouldClose env.window ::
          Call.glfwGetKey env.window .GLFW_KEY_ESCAPE ::
          Call.glfwSetWindowShouldClose env.window cTrue :: renderCalls env, p c = true) :
    (loopTrace env (frameLoop env fuel i b)).filter p
      = loopTrace env (frameLoop env fuel i b) := by
  rw [List.filter_eq_self]
  intro c hc
  exact hp c (mem_loopTrace env fuel i b c hc)

/-- The loop reads only the window, the key states, the event effects, the
program and the vertex array from the environment. -/
theorem frameLoop_congr (env env2 : Env) (hw : env2.window = env.window)
    (hk : env2.keyEscape = env.keyEscape) (hp : env2.pollEvents = env.pollEvents)
    (hs : env2.shaderProgram = env.shaderProgram) (ha : env2.VAO = env.VAO) (fuel : Nat) :
    ∀ (i : Nat) (b : Bool), frameLoop env2 fuel i b = frameLoop env fuel i b := by
  have hb : ∀ (i : Nat) (b : Bool), loopBody env2 i b = loopBody env i b := by
    intro i b
    simp [loopBody, processInput, renderCalls, hw, hk, hp, hs, ha]
  induction fuel with
  | zero => intro i b; rfl
  | succ n ih =>
    intro i b
    cases b with
    | true => simp [frameLoop]
    | false => rw [frameLoop_open, frameLoop_open, hb, ih]

/-- The calls of an executed iteration: `processInput`, then always the
render calls. -/
theorem loopBody_calls (env : Env) (i : Nat) :
    (env.keyEscape i = GLFW_PRESS →
      (loopBody env i false).1 =
        [ Call.glfwGetKey env.window .GLFW_KEY_ESCAPE,
          Call.glfwSetWindowShouldClose env.window cTrue ] ++ renderCalls env) ∧
    (env.keyEscape i ≠ GLFW_PRESS →
      (loopBody env i false).1 =
        [ Call.glfwGetKey env.window .GLFW_KEY_ESCAPE ] ++ renderCalls env) := by
  constructor <;> intro h <;> simp [loopBody, processInput, h]

/-- Each loop body has one clear and one draw, whatever `processInput` saw. -/
theorem loopBody_clear_draw (env : Env) (i : Nat) (b : Bool) :
    (loopBody env i b).1.head? = some (Call.glfwGetKey env.window .GLFW_KEY_ESCAPE) ∧
    (loopBody env i b).1.filter isClear = [Call.glClear .GL_COLOR_BUFFER_BIT] ∧
    (loopBody env i b).1.filter isDraw = [Call.glDrawArrays .GL_TRIANGLES 0 6] := by
  unfold loopBody processInput
  split <;> simp [renderCalls, isClear, isDraw]

/-- The loop draws once per executed iteration. -/
theorem filter_isDraw_loopTrace (env : Env) (fuel : Nat) :
    ∀ (i : Nat) (b : Bool),
      (loopTrace env (frameLoop env fuel i b)).filter isDraw =
        List.replicate (frameLoop env fuel i b).iterations.length
          (Call.glDrawArrays .GL_TRIANGLES 0 6) := by
  induction fuel with
  | zero => intro i b; rw [loopTrace_zero]; simp [frameLoop]
  | succ n ih =>
    intro i b
    cases b with
    | true => rw [loopTrace_closed, frameLoop_closed]; simp [isDraw]
    | false =>
      rw [loopTrace_open, frameLoop_open]
      simp only [List.filter_cons, List.filter_append, (loopBody_clear_draw env i false).2.2, ih]
      simp [isDraw, List.replicate_succ]

/-! ## Lemmas on the shared locals and the three checks -/

theorem writeStatus_infoLog (w : Option Int) (l : Locals) :
    (writeStatus w l).infoLog = l.infoLog := by
  cases w <;> rfl

theorem writeInfoLog_success (n : Nat) (w : Option (List Char)) (l : Locals) :
    (writeInfoLog n w l).success = l.success := by
  cases w <;> rfl

/-- What the driver stores in a buffer of 512 characters is shorter than 512. -/
theorem glGetInfoLog_length_lt (driverLog : List Char) :
    (glGetInfoLog 512 driverLog).length < 512 := by
  simp only [glGetInfoLog, List.length_take]
  omega

/-- A retrieval leaves in the buffer a text shorter than 512 characters, or
what the buffer held. -/
theorem writeInfoLog_infoLog (w : Option (List Char)) (l : Locals) :
    ((writeInfoLog 512 w l).infoLog.length < 512 ∧ w ≠ none) ∨
      ((writeInfoLog 512 w l).infoLog = l.infoLog ∧ w = none) := by
  cases w with
  | none => exact Or.inr ⟨rfl, rfl⟩
  | some d => exact Or.inl ⟨glGetInfoLog_length_lt d, by simp⟩

theorem vertexShaderBlock_locals (env : Env) (l : Locals) :
    (vertexShaderBlock env l).2 =
      if (writeStatus env.vertexStatus l).success = 0 then
        writeInfoLog 512 env.vertexLog (writeStatus env.vertexStatus l)
      else writeStatus env.vertexStatus l := by
  by_cases h : (writeStatus env.vertexStatus l).success = 0 <;>
    simp [vertexShaderBlock, h, infoLogSize]

theorem fragmentShaderBlock_locals (env : Env) (l : Locals) :
    (fragmentShaderBlock env l).2 =
      if (writeStatus env.fragmentStatus l).success = 0 then
        writeInfoLog 512 env.fragmentLog (writeStatus env.fragmentStatus l)
      else writeStatus env.fragmentStatus l := by
  by_cases h : (writeStatus env.fragmentStatus l).success = 0 <;>
    simp [fragmentShaderBlock, h, infoLogSize]

theorem programBlock_locals (env : Env) (l : Locals) :
    (programBlock env l).2 =
      if (writeStatus env.linkStatus l).success = 0 then
        writeInfoLog 512 env.programLog (writeStatus env.linkStatus l)
      else writeStatus env.linkStatus l := by
  by_cases h : (writeStatus env.linkStatus l).success = 0 <;>
    simp [programBlock, h, infoLogSize]

/-- The flag that a check tests is what its query left in `success`. -/
theorem vertexShaderBlock_success (env : Env) (l : Locals) :
    (vertexShaderBlock env l).2.success = (writeStatus env.vertexStatus l).success := by
  rw [vertexShaderBlock_locals]
  split_ifs <;> simp [writeInfoLog_success]

theorem fragmentShaderBlock_success (env : Env) (l : Locals) :
    (fragmentShaderBlock env l).2.success = (writeStatus env.fragmentStatus l).success := by
  rw [fragmentShaderBlock_locals]
  split_ifs <;> simp [writeInfoLog_success]

theorem programBlock_success (env : Env) (l : Locals) :
    (programBlock env l).2.success = (writeStatus env.linkStatus l).success := by
  rw [programBlock_locals]
  split_ifs <;> simp [writeInfoLog_success]

/-- The calls of the vertex check: the four of lines 77-85, then the retrieval
and the print of the buffer when the tested flag is 0. -/
theorem vertexShaderBlock_calls (env : Env) (l : Locals) :
    (vertexShaderBlock env l).1 =
      [ Call.glCreateShader .GL_VERTEX_SHADER,
        Call.glShaderSource env.vertexShader 1 vertexShaderSource,
        Call.glCompileShader env.vertexShader,
        Call.glGetShaderiv env.vertexShader .GL_COMPILE_STATUS ] ++
      (if (vertexShaderBlock env l).2.success = 0 then
        [ Call.glGetShaderInfoLog env.vertexShader 512,
          Call.cout (.vertexCompilationFailed (vertexShaderBlock env l).2.infoLog) ]
       else []) := by
  rw [vertexShaderBlock_success]
  by_cases h : (writeStatus env.vertexStatus l).success = 0 <;>
    simp [vertexShaderBlock, h, infoLogSize]

theorem fragmentShaderBlock_calls (env : Env) (l : Locals) :
    (fragmentShaderBlock env l).1 =
      [ Call.glCreateShader .GL_FRAGMENT_SHADER,
        Call.glShaderSource env.fragmentShader 1 fragmentShaderSource,
        Call.glCompileShader env.fragmentShader,
        Call.glGetShaderiv env.fragmentShader .GL_COMPILE_STATUS ] ++
      (if (fragmentShaderBlock env l).2.success = 0 then
        [ Call.glGetShaderInfoLog env.fragmentShader 512,
          Call.cout (.fragmentCompilationFailed (fragmentShaderBlock env l).2.infoLog) ]
       else []) := by
  rw [fragmentShaderBlock_success]
  by_cases h : (writeStatus env.fragmentStatus l).success = 0 <;>
    simp [fragmentShaderBlock, h, infoLogSize]

theorem programBlock_calls (env : Env) (l : Locals) :
    (programBlock env l).1 =
      [ Call.glCreateProgram,
        Call.glAttachShader env.shaderProgram env.vertexShader,
        Call.glAttachShader env.shaderProgram env.fragmentShader,
        Call.glLinkProgram env.shaderProgram,
        Call.glGetProgramiv env.shaderProgram .GL_LINK_STATUS ] ++
      (if (programBlock env l).2.success = 0 then
        [ Call.glGetProgramInfoLog env.shaderProgram 512,
          Call.cout (.programLinkingFailed (programBlock env l).2.infoLog) ]
       else []) := by
  rw [programBlock_success]
  by_cases h : (writeStatus env.linkStatus l).success = 0 <;>
    simp [programBlock, h, infoLogSize]

/-- The calls of lines 75-117 in terms of the flags tested and the buffer
printed by the three checks. -/
theorem shaderCalls_eq (env : Env) :
    shaderCalls env =
      [ Call.glCreateShader .GL_VERTEX_SHADER,
        Call.glShaderSource env.vertexShader 1 vertexShaderSource,
        Call.glCompileShader env.vertexShader,
        Call.glGetShaderiv env.vertexShader .GL_COMPILE_STATUS ] ++
      (if (localsAfterVertex env).success = 0 then
        [ Call.glGetShaderInfoLog env.vertexShader 512,
          Call.cout (.vertexCompilationFailed (localsAfterVertex env).infoLog) ]
       else []) ++
      [ Call.glCreateShader .GL_FRAGMENT_SHADER,
        Call.glShaderSource env.fragmentShader 1 fragmentShaderSource,
        Call.glCompileShader env.fragmentShader,
        Call.glGetShaderiv env.fragmentShader .GL_COMPILE_STATUS ] ++
      (if (localsAfterFragment env).success = 0 then
        [ Call.glGetShaderInfoLog env.fragmentShader 512,
          Call.cout (.fragmentCompilationFailed (localsAfterFragment env).infoLog) ]
       else []) ++
      [ Call.glCreateProgram,
        Call.glAttachShader env.shaderProgram env.vertexShader,
        Call.glAttachShader env.shaderProgram env.fragmentShader,
        Call.glLinkProgram env.shaderProgram,
        Call.glGetProgramiv env.shaderProgram .GL_LINK_STATUS ] ++
      (if (localsAfterLink env).success = 0 then
        [ Call.glGetProgramInfoLog env.shaderProgram 512,
          Call.cout (.programLinkingFailed (localsAfterLink env).infoLog) ]
       else []) := by
  unfold shaderCalls
  rw [vertexShaderBlock_calls, fragmentShaderBlock_calls, programBlock_calls]
  simp only [localsAfterVertex, localsAfterFragment, localsAfterLink, List.append_assoc]

/-- The flags tested by the three checks: the status that the driver wrote, or
the flag left by the step before when it wrote nothing. -/
theorem tested_flags (env : Env) :
    (localsAfterVertex env).success = (writeStatus env.vertexStatus (localsInit env)).success ∧
    (localsAfterFragment env).success
      = (writeStatus env.fragmentStatus (localsAfterVertex env)).success ∧
    (localsAfterLink env).success
      = (writeStatus env.linkStatus (localsAfterFragment env)).success :=
  ⟨vertexShaderBlock_success env _, fragmentShaderBlock_success env _,
    programBlock_success env _⟩

theorem vertexShaderBlock_infoLog (env : Env) (l : Locals) :
    (∀ d, (vertexShaderBlock env l).2.success = 0 → env.vertexLog = some d →
      (vertexShaderBlock env l).2.infoLog = glGetInfoLog 512 d) ∧
    ((vertexShaderBlock env l).2.success = 0 → env.vertexLog = none →
      (vertexShaderBlock env l).2.infoLog = l.infoLog) := by
  rw [vertexShaderBlock_success, vertexShaderBlock_locals]
  refine ⟨fun d h hd => ?_, fun h hd => ?_⟩ <;>
    simp [h, hd, writeInfoLog, writeStatus_infoLog]

theorem fragmentShaderBlock_infoLog (env : Env) (l : Locals) :
    (∀ d, (fragmentShaderBlock env l).2.success = 0 → env.fragmentLog = some d →
      (fragmentShaderBlock env l).2.infoLog = glGetInfoLog 512 d) ∧
    ((fragmentShaderBlock env l).2.success = 0 → env.fragmentLog = none →
      (fragmentShaderBlock env l).2.infoLog = l.infoLog) := by
  rw [fragmentShaderBlock_success, fragmentShaderBlock_locals]
  refine ⟨fun d h hd => ?_, fun h hd => ?_⟩ <;>
    simp [h, hd, writeInfoLog, writeStatus_infoLog]

theorem programBlock_infoLog (env : Env) (l : Locals) :
    (∀ d, (programBlock env l).2.success = 0 → env.programLog = some d →
      (programBlock env l).2.infoLog = glGetInfoLog 512 d) ∧
    ((programBlock env l).2.success = 0 → env.programLog = none →
      (programBlock env l).2.infoLog = l.infoLog) := by
  rw [programBlock_success, programBlock_locals]
  refine ⟨fun d h hd => ?_, fun h hd => ?_⟩ <;>
    simp [h, hd, writeInfoLog, writeStatus_infoLog]

/-- When the driver writes the three statuses and, on retrieval, the three
logs, each check tests the status of its own step and prints the log of its
own step, cut to the buffer. -/
theorem written_checks (env : Env) (v f l : Int) (dv df dl : List Char)
    (hv : env.vertexStatus = some v) (hf : env.fragmentStatus = some f)
    (hl : env.linkStatus = some l) (hdv : env.vertexLog = some dv)
    (hdf : env.fragmentLog = some df) (hdl : env.programLog = some dl) :
    (localsAfterVertex env).success = v ∧ (localsAfterFragment env).success = f ∧
    (localsAfterLink env).success = l ∧
    (v = 0 → (localsAfterVertex env).infoLog = glGetInfoLog 512 dv) ∧
    (f = 0 → (localsAfterFragment env).infoLog = glGetInfoLog 512 df) ∧
    (l = 0 → (localsAfterLink env).infoLog = glGetInfoLog 512 dl) := by
  have e1 : (localsAfterVertex env).success = v := by
    rw [(tested_flags env).1, hv]; rfl
  have e2 : (localsAfterFragment env).success = f := by
    rw [(tested_flags env).2.1, hf]; rfl
  have e3 : (localsAfterLink env).success = l := by
    rw [(tested_flags env).2.2, hl]; rfl
  refine ⟨e1, e2, e3, fun h => ?_, fun h => ?_, fun h => ?_⟩
  · exact (vertexShaderBlock_infoLog env (localsInit env)).1 dv (by rw [← h]; exact e1) hdv
  · exact (fragmentShaderBlock_infoLog env (localsAfterVertex env)).1 df
      (by rw [← h]; exact e2) hdf
  · exact (programBlock_infoLog env (localsAfterFragment env)).1 dl
      (by rw [← h]; exact e3) hdl

/-- The calls that retrieve or print a log, in terms of the flags tested and
the buffer printed. -/
theorem filter_isDiagnostic_main (env : Env) (fuel : Nat) (h1 : env.glfwInit ≠ 0)
    (h2 : env.window ≠ 0) (h3 : env.gladLoadGLLoader ≠ 0) :
    (main fuel env).trace.filter isDiagnostic =
      (if (localsAfterVertex env).success = 0 then
        [ Call.glGetShaderInfoLog env.vertexShader 512,
          Call.cout (.vertexCompilationFailed (localsAfterVertex env).infoLog) ] else []) ++
      (if (localsAfterFragment env).success = 0 then
        [ Call.glGetShaderInfoLog env.fragmentShader 512,
          Call.cout (.fragmentCompilationFailed (localsAfterFragment env).infoLog) ] else []) ++
      (if (localsAfterLink env).success = 0 then
        [ Call.glGetProgramInfoLog env.shaderProgram 512,
          Call.cout (.programLinkingFailed (localsAfterLink env).infoLog) ] else []) := by
  rw [main_of_init env fuel h1 h2 h3]
  have hl := filter_loopTrace_eq_nil env fuel 0 false isDiagnostic
    (by simp [renderCalls, isDiagnostic])
  simp only [List.filter_append, hl]
  have ht : (if (frameLoop env fuel 0 false).exited then teardownCalls env else []).filter
      isDiagnostic = [] := by
    split_ifs <;> simp [teardownCalls, isDiagnostic]
  rw [ht]
  simp only [setupCalls, shaderCalls_eq,
    bufferCalls, postLinkCalls, layoutCalls, windowCalls, contextCalls, infoLogSize]
  split_ifs <;> simp [isDiagnostic]

/-- The buffer after each of the three checks holds a text shorter than 512
characters or the text it had before the first check. -/
theorem infoLog_bounded (env : Env) :
    ((localsAfterVertex env).infoLog.length < 512 ∨
      (localsAfterVertex env).infoLog = env.infoLogInit) ∧
    ((localsAfterFragment env).infoLog.length < 512 ∨
      (localsAfterFragment env).infoLog = env.infoLogInit) ∧
    ((localsAfterLink env).infoLog.length < 512 ∨
      (localsAfterLink env).infoLog = env.infoLogInit) := by
  have step : ∀ (st : Option Int) (lg : Option (List Char)) (l : Locals),
      (l.infoLog.length < 512 ∨ l.infoLog = env.infoLogInit) →
      ((if (writeStatus st l).success = 0 then writeInfoLog 512 lg (writeStatus st l)
          else writeStatus st l).infoLog.length < 512 ∨
        (if (writeStatus st l).success = 0 then writeInfoLog 512 lg (writeStatus st l)
          else writeStatus st l).infoLog = env.infoLogInit) := by
    intro st lg l hl
    split_ifs
    · rcases writeInfoLog_infoLog lg (writeStatus st l) with h | h
      · exact Or.inl h.1
      · rw [h.1, writeStatus_infoLog]; exact hl
    · rw [writeStatus_infoLog]; exact hl
  have hv : (localsAfterVertex env).infoLog.length < 512 ∨
      (localsAfterVertex env).infoLog = env.infoLogInit := by
    unfold localsAfterVertex
    rw [vertexShaderBlock_locals]
    exact step _ _ _ (Or.inr rfl)
  have hf : (localsAfterFragment env).infoLog.length < 512 ∨
      (localsAfterFragment env).infoLog = env.infoLogInit := by
    unfold localsAfterFragment
    rw [fragmentShaderBlock_locals]
    exact step _ _ _ hv
  refine ⟨hv, hf, ?_⟩
  unfold localsAfterLink
  rw [programBlock_locals]
  exact step _ _ _ hf

/-- The floats uploaded by a trace are those of its uploads. -/
theorem filterMap_uploadedFloats (t : List Call) :
    t.filterMap uploadedFloats = (t.filter isUpload).filterMap uploadedFloats := by
  induction t with
  | nil => rfl
  | cons c t ih =>
    cases c <;> simp [uploadedFloats, isUpload, List.filterMap_cons, List.filter_cons, ih]

/-- The vertex counts requested by a trace are those of its draw calls. -/
theorem filterMap_drawCount (t : List Call) :
    t.filterMap drawCount = (t.filter isDraw).filterMap drawCount := by
  induction t with
  | nil => rfl
  | cons c t ih =>
    cases c <;> simp [drawCount, isDraw, List.filterMap_cons, List.filter_cons, ih]

theorem filterMap_drawCount_replicate (n : Nat) :
    (List.replicate n (Call.glDrawArrays .GL_TRIANGLES 0 6)).filterMap drawCount
      = List.replicate n 6 := by
  induction n with
  | zero => rfl
  | succ n ih => simp [List.replicate_succ, List.filterMap_cons, drawCount, ih]

/-! ## The claims -/

/-- C1: `main` returns -1 when `glfwInit` fails, and then its whole trace is the
single call `glfwInit` (no window, shader, buffer or draw call); it returns -1
when `glfwCreateWindow` gives no window; once GLFW, the window and GLAD are
there, it returns 0 exactly when the frame loop is left, which happens with
enough fuel on every run whose close-request gets set; and the three shader
statuses never change the returned code. -/
theorem C1_main_return_code (env : Env) (fuel : Nat) :
    (env.glfwInit = 0 → main fuel env = ⟨[.glfwInit], some (-1)⟩) ∧
    (env.glfwInit ≠ 0 → env.window = 0 → (main fuel env).ret = some (-1)) ∧
    (env.glfwInit ≠ 0 → env.window ≠ 0 → env.gladLoadGLLoader ≠ 0 →
      ((frameLoop env fuel 0 false).exited = true → (main fuel env).ret = some 0) ∧
      ((frameLoop env fuel 0 false).exited = false → (main fuel env).ret = none) ∧
      (∀ k, shouldCloseAt env k = true → k < fuel → (main fuel env).ret = some 0)) ∧
    (∀ v f l : Option Int,
      (main fuel { env with vertexStatus := v, fragmentStatus := f, linkStatus := l }).ret
        = (main fuel env).ret) := by
  refine ⟨fun h => by simp [main, h], fun h1 h2 => by simp [main, h1, h2],
    fun h1 h2 h3 => ?_, fun v f l => ?_⟩
  · rw [main_of_init env fuel h1 h2 h3]
    refine ⟨fun h => by simp [h], fun h => by simp [h], fun k hk hlt => ?_⟩
    have := frameLoop_exited env k fuel 0 false hk hlt
    simp [this]
  · have hloop : ∀ (n i : Nat) (b : Bool),
        frameLoop { env with vertexStatus := v, fragmentStatus := f, linkStatus := l } n i b
          = frameLoop env n i b := by
      intro n
      induction n with
      | zero => intro i b; rfl
      | succ n ih =>
        intro i b
        cases b with
        | true => simp [frameLoop]
        | false =>
          rw [frameLoop_open, frameLoop_open]
          have hb : loopBody { env with vertexStatus := v, fragmentStatus := f, linkStatus := l }
              i false = loopBody env i false := rfl
          rw [hb, ih]
    simp only [main, hloop]
    split_ifs <;> rfl

/-- C1 at concrete runs: failing `glfwInit`, and a run that the user closes. -/
theorem C1_main_return_code_witness :
    main 5 envInitFails = ⟨[.glfwInit], some (-1)⟩ ∧ (main 5 envClose).ret = some 0 :=
  ⟨(C1_main_return_code envInitFails 5).1 rfl,
   ((C1_main_return_code envClose 5).2.2.1 (by decide) (by decide) (by decide)).2.2 2
      (by decide) (by decide)⟩

/-- C2: with a windowing system that never clears the close-request, a
close-request that is set at the `n`-th evaluation of the loop condition
leaves at most the `n` iterations before it (none follows, and with fuel left
the loop is exited), and the iteration `k` in which `processInput` sees Escape
pressed is the last iteration executed. -/
theorem C2_frame_loop_terminates (env : Env) (hkeep : ∀ i, env.pollEvents i true = true)
    (fuel : Nat) :
    (∀ n, shouldCloseAt env n = true →
      (frameLoop env fuel 0 false).iterations.length ≤ n ∧
        (n < fuel → (frameLoop env fuel 0 false).exited = true)) ∧
    (∀ k, k < (frameLoop env fuel 0 false).iterations.length →
      env.keyEscape k = GLFW_PRESS →
        (frameLoop env fuel 0 false).iterations.length = k + 1 ∧
          (k + 1 < fuel → (frameLoop env fuel 0 false).exited = true)) := by
  refine ⟨fun n hn => ⟨frameLoop_length_le_of_close env n fuel 0 false hn,
      frameLoop_exited env n fuel 0 false hn⟩, fun k hk hkey => ?_⟩
  exact frameLoop_escape_last env hkeep fuel 0 false k hk (by simpa using hkey)

/-- C2 at a concrete run: Escape is pressed in iteration 0, which is the only
iteration, and the loop is left. -/
theorem C2_frame_loop_terminates_witness :
    (frameLoop envEscape 4 0 false).iterations.length = 1 ∧
      (frameLoop envEscape 4 0 false).exited = true :=
  have h := (C2_frame_loop_terminates envEscape (fun _ => rfl) 4).2 0 (by decide) rfl
  ⟨h.1, h.2 (by decide)⟩

/-- C3: shader and link failures are not fatal.  Whatever the three statuses
are, the calls of `main` other than the retrieval and print of an information
log are the same list: it has the creation of the program, both attachments,
the link and the query of the link status, and goes on into the frame loop;
every iteration binds that program and draws; and the retrievals and prints
are exactly those of the steps whose tested flag is 0, which, when the driver
writes the statuses and the logs, are the failed steps with their own logs. -/
theorem C3_shader_failures_non_fatal (env : Env) (fuel : Nat) (h1 : env.glfwInit ≠ 0)
    (h2 : env.window ≠ 0) (h3 : env.gladLoadGLLoader ≠ 0) :
    (main fuel env).trace.filter (fun c => !isDiagnostic c) =
      windowCalls ++ contextCalls env ++ bufferCalls env ++
      [ .glCreateShader .GL_VERTEX_SHADER,
        .glShaderSource env.vertexShader 1 vertexShaderSource,
        .glCompileShader env.vertexShader,
        .glGetShaderiv env.vertexShader .GL_COMPILE_STATUS,
        .glCreateShader .GL_FRAGMENT_SHADER,
        .glShaderSource env.fragmentShader 1 fragmentShaderSource,
        .glCompileShader env.fragmentShader,
        .glGetShaderiv env.fragmentShader .GL_COMPILE_STATUS,
        .glCreateProgram,
        .glAttachShader env.shaderProgram env.vertexShader,
        .glAttachShader env.shaderProgram env.fragmentShader,
        .glLinkProgram env.shaderProgram,
        .glGetProgramiv env.shaderProgram .GL_LINK_STATUS ] ++
      postLinkCalls env ++ layoutCalls env ++
      loopTrace env (frameLoop env fuel 0 false) ++
      (if (frameLoop env fuel 0 false).exited then teardownCalls env else []) ∧
    (∀ it ∈ (frameLoop env fuel 0 false).iterations,
      [ Call.glUseProgram env.shaderProgram, Call.glBindVertexArray env.VAO,
        Call.glDrawArrays .GL_TRIANGLES 0 6 ] <:+: it) ∧
    ((main fuel env).trace.filter isDiagnostic =
      (if (localsAfterVertex env).success = 0 then
        [ Call.glGetShaderInfoLog env.vertexShader 512,
          Call.cout (.vertexCompilationFailed (localsAfterVertex env).infoLog) ] else []) ++
      (if (localsAfterFragment env).success = 0 then
        [ Call.glGetShaderInfoLog env.fragmentShader 512,
          Call.cout (.fragmentCompilationFailed (localsAfterFragment env).infoLog) ] else []) ++
      (if (localsAfterLink env).success = 0 then
        [ Call.glGetProgramInfoLog env.shaderProgram 512,
          Call.cout (.programLinkingFailed (localsAfterLink env).infoLog) ] else []) ∧
     (∀ (v f l : Int) (dv df dl : List Char),
      env.vertexStatus = some v → env.fragmentStatus = some f → env.linkStatus = some l →
      env.vertexLog = some dv → env.fragmentLog = some df → env.programLog = some dl →
      (main fuel env).trace.filter isDiagnostic =
        (if v = 0 then
          [ Call.glGetShaderInfoLog env.vertexShader 512,
            Call.cout (.vertexCompilationFailed (glGetInfoLog 512 dv)) ] else []) ++
        (if f = 0 then
          [ Call.glGetShaderInfoLog env.fragmentShader 512,
            Call.cout (.fragmentCompilationFailed (glGetInfoLog 512 df)) ] else []) ++
        (if l = 0 then
          [ Call.glGetProgramInfoLog env.shaderProgram 512,
            Call.cout (.programLinkingFailed (glGetInfoLog 512 dl)) ] else []))) ∧
    (∀ v f l : Option Int,
      (main fuel { env with vertexStatus := v, fragmentStatus := f, linkStatus := l }).trace.filter
          (fun c => !isDiagnostic c)
        = (main fuel env).trace.filter (fun c => !isDiagnostic c) ∧
      (main fuel { env with vertexStatus := v, fragmentStatus := f, linkStatus := l }).ret
        = (main fuel env).ret) := by
  have key : ∀ e : Env, e.glfwInit ≠ 0 → e.window ≠ 0 → e.gladLoadGLLoader ≠ 0 →
      (main fuel e).trace.filter (fun c => !isDiagnostic c) =
        windowCalls ++ contextCalls e ++ bufferCalls e ++
        [ .glCreateShader .GL_VERTEX_SHADER,
          .glShaderSource e.vertexShader 1 vertexShaderSource,
          .glCompileShader e.vertexShader,
          .glGetShaderiv e.vertexShader .GL_COMPILE_STATUS,
          .glCreateShader .GL_FRAGMENT_SHADER,
          .glShaderSource e.fragmentShader 1 fragmentShaderSource,
          .glCompileShader e.fragmentShader,
          .glGetShaderiv e.fragmentShader .GL_COMPILE_STATUS,
          .glCreateProgram,
          .glAttachShader e.shaderProgram e.vertexShader,
          .glAttachShader e.shaderProgram e.fragmentShader,
          .glLinkProgram e.shaderProgram,
          .glGetProgramiv e.shaderProgram .GL_LINK_STATUS ] ++
        postLinkCalls e ++ layoutCalls e ++
        loopTrace e (frameLoop e fuel 0 false) ++
        (if (frameLoop e fuel 0 false).exited then teardownCalls e else []) := by
    intro e g1 g2 g3
    rw [main_of_init e fuel g1 g2 g3]
    have hl := filter_loopTrace_eq_self e fuel 0 false (fun c => !isDiagnostic c)
      (by simp [renderCalls, isDiagnostic])
    simp only [List.filter_append, hl]
    have hs : (setupCalls e).filter (fun c => !isDiagnostic c) =
        bufferCalls e ++
        [ .glCreateShader .GL_VERTEX_SHADER,
          .glShaderSource e.vertexShader 1 vertexShaderSource,
          .glCompileShader e.vertexShader,
          .glGetShaderiv e.vertexShader .GL_COMPILE_STATUS,
          .glCreateShader .GL_FRAGMENT_SHADER,
          .glShaderSource e.fragmentShader 1 fragmentShaderSource,
          .glCompileShader e.fragmentShader,
          .glGetShaderiv e.fragmentShader .GL_COMPILE_STATUS,
          .glCreateProgram,
          .glAttachShader e.shaderProgram e.vertexShader,
          .glAttachShader e.shaderProgram e.fragmentShader,
          .glLinkProgram e.shaderProgram,
          .glGetProgramiv e.shaderProgram .GL_LINK_STATUS ] ++
        postLinkCalls e ++ layoutCalls e := by
      simp only [setupCalls, shaderCalls_eq,
        bufferCalls, postLinkCalls, layoutCalls]
      split_ifs <;> simp [isDiagnostic]
    have hw : windowCalls.filter (fun c => !isDiagnostic c) = windowCalls := by
      simp [windowCalls, isDiagnostic]
    have hc : (contextCalls e).filter (fun c => !isDiagnostic c) = contextCalls e := by
      simp [contextCalls, isDiagnostic]
    have ht : (if (frameLoop e fuel 0 false).exited then teardownCalls e else []).filter
        (fun c => !isDiagnostic c)
        = (if (frameLoop e fuel 0 false).exited then teardownCalls e else []) := by
      split_ifs <;> simp [teardownCalls, isDiagnostic]
    rw [hs, hw, hc, ht]
    simp only [List.append_assoc]
  refine ⟨key env h1 h2 h3, ?_, ?_, ?_⟩
  · intro it hit
    obtain ⟨k, hk, rfl⟩ := List.getElem_of_mem hit
    have hget : (frameLoop env fuel 0 false).iterations[k]? =
        some ((frameLoop env fuel 0 false).iterations[k]) := List.getElem?_eq_getElem hk
    rw [frameLoop_iteration_eq env fuel 0 false k _ hget]
    refine ⟨(processInput env (0 + k) false).1 ++
      [ .glClearColor ⟨2550, 1⟩ ⟨2550, 1⟩ ⟨0, 1⟩ ⟨10, 1⟩, .glClear .GL_COLOR_BUFFER_BIT ],
      [ .glfwSwapBuffers env.window, .glfwPollEvents ], ?_⟩
    simp [loopBody, renderCalls]
  · refine ⟨filter_isDiagnostic_main env fuel h1 h2 h3,
      fun v f l dv df dl hv hf hl hdv hdf hdl => ?_⟩
    obtain ⟨e1, e2, e3, b1, b2, b3⟩ := written_checks env v f l dv df dl hv hf hl hdv hdf hdl
    rw [filter_isDiagnostic_main env fuel h1 h2 h3, e1, e2, e3]
    split_ifs with a b c <;> simp_all
  · intro v f l
    have hloop := frameLoop_congr env
      { env with vertexStatus := v, fragmentStatus := f, linkStatus := l } rfl rfl rfl rfl rfl fuel
    have key2 := key { env with vertexStatus := v, fragmentStatus := f, linkStatus := l }
      h1 h2 h3
    have main2 := main_of_init
      { env with vertexStatus := v, fragmentStatus := f, linkStatus := l } fuel h1 h2 h3
    refine ⟨?_, ?_⟩
    · rw [key2, key env h1 h2 h3, hloop]
      rfl
    · rw [main2, main_of_init env fuel h1 h2 h3, hloop]

/-- C3 at a concrete run: the vertex compile and the link fail, and the calls
other than the diagnostics are those of the run in which nothing fails. -/
theorem C3_shader_failures_non_fatal_witness :
    (main 5 envBadVertex).trace.filter (fun c => !isDiagnostic c)
      = (main 5 envClose).trace.filter (fun c => !isDiagnostic c) ∧
    (main 5 envBadVertex).ret = (main 5 envClose).ret :=
  (C3_shader_failures_non_fatal envClose 5 (by decide) (by decide) (by decide)).2.2.2
    (some 0) (some 1) (some 0)

/-- C4: the three fatal initialisation failures at concrete runs.  Each returns
-1 and makes no shader or frame-loop call, but only the GLAD failure writes to
standard output: when `glfwInit` fails or `glfwCreateWindow` returns no
window, nothing at all is written. -/
theorem C4_fatal_init_output :
    ((main 5 envInitFails).ret = some (-1) ∧
      (main 5 envInitFails).trace.filter isShaderOrLoopCall = [] ∧
      stdout (main 5 envInitFails).trace = []) ∧
    ((main 5 envNoWindow).ret = some (-1) ∧
      (main 5 envNoWindow).trace.filter isShaderOrLoopCall = [] ∧
      stdout (main 5 envNoWindow).trace = []) ∧
    ((main 5 envNoGlad).ret = some (-1) ∧
      (main 5 envNoGlad).trace.filter isShaderOrLoopCall = [] ∧
      stdout (main 5 envNoGlad).trace = "Failed to initialize GLAD\n".toList) := by
  refine ⟨⟨rfl, rfl, rfl⟩, ⟨rfl, rfl, rfl⟩, ⟨rfl, rfl, rfl⟩⟩

/-- C5: on a run that reached the frame loop, the vertex array, the buffer and
the program that were allocated before the loop are each released exactly
once, on the allocated handle, after the loop was left and before `main`
returns 0; no release happens before or inside the loop, nor while the loop
is running; and the loop is left, with enough fuel, whenever the
close-request gets set. -/
theorem C5_release_after_loop (env : Env) (fuel : Nat) (h1 : env.glfwInit ≠ 0)
    (h2 : env.window ≠ 0) (h3 : env.gladLoadGLLoader ≠ 0) :
    (Call.glGenBuffers 1 env.VBO ∈ setupCalls env ∧
      Call.glGenVertexArrays 1 env.VAO ∈ setupCalls env ∧
      Call.glCreateProgram ∈ setupCalls env) ∧
    ((frameLoop env fuel 0 false).exited = true →
      (main fuel env).ret = some 0 ∧
      (main fuel env).trace =
        windowCalls ++ contextCalls env ++ setupCalls env
          ++ loopTrace env (frameLoop env fuel 0 false)
          ++ [ .glDeleteVertexArrays 1 env.VAO, .glDeleteBuffers 1 env.VBO,
               .glDeleteProgram env.shaderProgram, .glfwTerminate ] ∧
      (main fuel env).trace.filter isRelease =
        [ .glDeleteVertexArrays 1 env.VAO, .glDeleteBuffers 1 env.VBO,
          .glDeleteProgram env.shaderProgram ]) ∧
    ((frameLoop env fuel 0 false).exited = false →
      (main fuel env).ret = none ∧ (main fuel env).trace.filter isRelease = []) ∧
    (windowCalls ++ contextCalls env ++ setupCalls env
      ++ loopTrace env (frameLoop env fuel 0 false)).filter isRelease = [] ∧
    (∀ k, shouldCloseAt env k = true → k < fuel →
      (frameLoop env fuel 0 false).exited = true) := by
  have hl := filter_loopTrace_eq_nil env fuel 0 false isRelease
    (by simp [renderCalls, isRelease])
  have hpre : (windowCalls ++ contextCalls env ++ setupCalls env
      ++ loopTrace env (frameLoop env fuel 0 false)).filter isRelease = [] := by
    simp only [List.filter_append, hl]
    simp only [setupCalls, shaderCalls_eq,
      bufferCalls, postLinkCalls, layoutCalls, windowCalls, contextCalls]
    split_ifs <;> simp [isRelease]
  refine ⟨⟨?_, ?_, ?_⟩, fun h => ?_, fun h => ?_, hpre, fun k hk hlt =>
    frameLoop_exited env k fuel 0 false hk hlt⟩
  · simp [setupCalls, bufferCalls]
  · simp [setupCalls, layoutCalls]
  · simp only [setupCalls, shaderCalls_eq]
    split_ifs <;> simp
  · rw [main_of_init env fuel h1 h2 h3]
    refine ⟨by simp [h], by simp [h, teardownCalls], ?_⟩
    simp only [h, if_true]
    rw [List.filter_append, hpre]
    simp [teardownCalls, isRelease]
  · rw [main_of_init env fuel h1 h2 h3]
    simp only [h]
    refine ⟨by simp, ?_⟩
    simpa using hpre

/-- C5 at a concrete run that the user closes: the three releases, once each,
at the end of the trace. -/
theorem C5_release_after_loop_witness :
    (main 5 envClose).ret = some 0 ∧
    (main 5 envClose).trace.filter isRelease =
      [ .glDeleteVertexArrays 1 1, .glDeleteBuffers 1 1, .glDeleteProgram 3 ] :=
  have h := (C5_release_after_loop envClose 5 (by decide) (by decide) (by decide)).2.1 rfl
  ⟨h.1, h.2.2⟩

/-- C6: on a run that got past initialisation, each of the three checks
retrieves the information log (into the 512-character buffer) and prints the
buffer exactly when the flag it tests is 0, and that flag is the status it
queried whenever the driver writes one; a check whose queried status is
non-zero produces no diagnostic, so nothing is written to standard output when
all three are non-zero; what a retrieval captures from the driver is shorter
than 512 characters whatever the length of the driver's log, and it is what the
check prints.  When the driver writes nothing (as for the name 0), the flag
and the buffer keep what the step before left, and a printed text is then a
log captured earlier or the uninitialised buffer. -/
theorem C6_diagnostics_iff_failed (env : Env) (fuel : Nat) (h1 : env.glfwInit ≠ 0)
    (h2 : env.window ≠ 0) (h3 : env.gladLoadGLLoader ≠ 0) :
    (main fuel env).trace.filter isLogRetrieval =
      (if (localsAfterVertex env).success = 0 then
        [Call.glGetShaderInfoLog env.vertexShader 512] else []) ++
      (if (localsAfterFragment env).success = 0 then
        [Call.glGetShaderInfoLog env.fragmentShader 512] else []) ++
      (if (localsAfterLink env).success = 0 then
        [Call.glGetProgramInfoLog env.shaderProgram 512] else []) ∧
    (main fuel env).trace.filterMap printed =
      (if (localsAfterVertex env).success = 0 then
        [Output.vertexCompilationFailed (localsAfterVertex env).infoLog] else []) ++
      (if (localsAfterFragment env).success = 0 then
        [Output.fragmentCompilationFailed (localsAfterFragment env).infoLog] else []) ++
      (if (localsAfterLink env).success = 0 then
        [Output.programLinkingFailed (localsAfterLink env).infoLog] else []) ∧
    ((∀ v, env.vertexStatus = some v → (localsAfterVertex env).success = v) ∧
     (env.vertexStatus = none → (localsAfterVertex env).success = env.successInit) ∧
     (∀ v, env.fragmentStatus = some v → (localsAfterFragment env).success = v) ∧
     (env.fragmentStatus = none →
        (localsAfterFragment env).success = (localsAfterVertex env).success) ∧
     (∀ v, env.linkStatus = some v → (localsAfterLink env).success = v) ∧
     (env.linkStatus = none →
        (localsAfterLink env).success = (localsAfterFragment env).success)) ∧
    ((∀ d, (localsAfterVertex env).success = 0 → env.vertexLog = some d →
        (localsAfterVertex env).infoLog = glGetInfoLog 512 d) ∧
     ((localsAfterVertex env).success = 0 → env.vertexLog = none →
        (localsAfterVertex env).infoLog = env.infoLogInit) ∧
     (∀ d, (localsAfterFragment env).success = 0 → env.fragmentLog = some d →
        (localsAfterFragment env).infoLog = glGetInfoLog 512 d) ∧
     ((localsAfterFragment env).success = 0 → env.fragmentLog = none →
        (localsAfterFragment env).infoLog = (localsAfterVertex env).infoLog) ∧
     (∀ d, (localsAfterLink env).success = 0 → env.programLog = some d →
        (localsAfterLink env).infoLog = glGetInfoLog 512 d) ∧
     ((localsAfterLink env).success = 0 → env.programLog = none →
        (localsAfterLink env).infoLog = (localsAfterFragment env).infoLog)) ∧
    (∀ d : List Char, (glGetInfoLog 512 d).length < 512) ∧
    (∀ o, Call.cout o ∈ (main fuel env).trace →
      o.diagnostic.length < 512 ∨ o.diagnostic = env.infoLogInit) ∧
    (∀ v f l : Int,
      env.vertexStatus = some v → env.fragmentStatus = some f → env.linkStatus = some l →
      v ≠ 0 → f ≠ 0 → l ≠ 0 → stdout (main fuel env).trace = []) ∧
    (∀ (v f l : Int) (dv df dl : List Char),
      env.vertexStatus = some v → env.fragmentStatus = some f → env.linkStatus = some l →
      env.vertexLog = some dv → env.fragmentLog = some df → env.programLog = some dl →
      (main fuel env).trace.filter isLogRetrieval =
        (if v = 0 then [Call.glGetShaderInfoLog env.vertexShader 512] else []) ++
        (if f = 0 then [Call.glGetShaderInfoLog env.fragmentShader 512] else []) ++
        (if l = 0 then [Call.glGetProgramInfoLog env.shaderProgram 512] else []) ∧
      (main fuel env).trace.filterMap printed =
        (if v = 0 then [Output.vertexCompilationFailed (glGetInfoLog 512 dv)] else []) ++
        (if f = 0 then [Output.fragmentCompilationFailed (glGetInfoLog 512 df)] else []) ++
        (if l = 0 then [Output.programLinkingFailed (glGetInfoLog 512 dl)] else []) ∧
      (∀ o, Call.cout o ∈ (main fuel env).trace → o.diagnostic.length < 512)) := by
  have hr : (main fuel env).trace.filter isLogRetrieval =
      (if (localsAfterVertex env).success = 0 then
        [Call.glGetShaderInfoLog env.vertexShader 512] else []) ++
      (if (localsAfterFragment env).success = 0 then
        [Call.glGetShaderInfoLog env.fragmentShader 512] else []) ++
      (if (localsAfterLink env).success = 0 then
        [Call.glGetProgramInfoLog env.shaderProgram 512] else []) := by
    rw [main_of_init env fuel h1 h2 h3]
    have hl := filter_loopTrace_eq_nil env fuel 0 false isLogRetrieval
      (by simp [renderCalls, isLogRetrieval])
    have ht : (if (frameLoop env fuel 0 false).exited then teardownCalls env else []).filter
        isLogRetrieval = [] := by
      split_ifs <;> simp [teardownCalls, isLogRetrieval]
    simp only [List.filter_append, hl, ht]
    simp only [setupCalls, shaderCalls_eq,
      bufferCalls, postLinkCalls, layoutCalls, windowCalls, contextCalls]
    split_ifs <;> simp [isLogRetrieval]
  have hloopP : ∀ c ∈ loopTrace env (frameLoop env fuel 0 false), printed c = none := by
    intro c hc
    have := mem_loopTrace env fuel 0 false c hc
    simp [renderCalls] at this
    rcases this with h | h | h | h | h | h | h | h | h | h <;> simp [h, printed]
  have hp : (main fuel env).trace.filterMap printed =
      (if (localsAfterVertex env).success = 0 then
        [Output.vertexCompilationFailed (localsAfterVertex env).infoLog] else []) ++
      (if (localsAfterFragment env).success = 0 then
        [Output.fragmentCompilationFailed (localsAfterFragment env).infoLog] else []) ++
      (if (localsAfterLink env).success = 0 then
        [Output.programLinkingFailed (localsAfterLink env).infoLog] else []) := by
    rw [main_of_init env fuel h1 h2 h3]
    have hl : (loopTrace env (frameLoop env fuel 0 false)).filterMap printed = [] := by
      rw [List.filterMap_eq_nil_iff]
      exact hloopP
    have ht : (if (frameLoop env fuel 0 false).exited then teardownCalls env else []).filterMap
        printed = [] := by
      split_ifs <;> simp [teardownCalls, printed]
    simp only [List.filterMap_append, hl, ht]
    simp only [setupCalls, shaderCalls_eq,
      bufferCalls, postLinkCalls, layoutCalls, windowCalls, contextCalls]
    split_ifs <;> simp [printed]
  have hmem : ∀ o, Call.cout o ∈ (main fuel env).trace →
      o ∈ (main fuel env).trace.filterMap printed := by
    intro o ho
    rw [List.mem_filterMap]
    exact ⟨_, ho, rfl⟩
  have hflags := tested_flags env
  have hst : ∀ t : List Call, stdout t = ((t.filterMap printed).map Output.text).flatten := by
    intro t
    induction t with
    | nil => rfl
    | cons c t ih =>
      cases c <;> simp_all [stdout, printed, List.filterMap_cons]
  refine ⟨hr, hp, ⟨?_, ?_, ?_, ?_, ?_, ?_⟩, ⟨?_, ?_, ?_, ?_, ?_, ?_⟩, glGetInfoLog_length_lt,
    fun o ho => ?_, fun v f l hv hf hl nv nf nl => ?_,
    fun v f l dv df dl hv hf hl hdv hdf hdl => ?_⟩
  · intro v hv; rw [hflags.1, hv]; rfl
  · intro hv; rw [hflags.1, hv]; rfl
  · intro v hv; rw [hflags.2.1, hv]; rfl
  · intro hv; rw [hflags.2.1, hv]; rfl
  · intro v hv; rw [hflags.2.2, hv]; rfl
  · intro hv; rw [hflags.2.2, hv]; rfl
  · exact (vertexShaderBlock_infoLog env (localsInit env)).1
  · exact (vertexShaderBlock_infoLog env (localsInit env)).2
  · exact (fragmentShaderBlock_infoLog env (localsAfterVertex env)).1
  · exact (fragmentShaderBlock_infoLog env (localsAfterVertex env)).2
  · exact (programBlock_infoLog env (localsAfterFragment env)).1
  · exact (programBlock_infoLog env (localsAfterFragment env)).2
  · have hb := infoLog_bounded env
    have hm := hmem o ho
    rw [hp] at hm
    simp only [List.mem_append] at hm
    rcases hm with (hm | hm) | hm <;> split_ifs at hm <;> simp at hm <;> subst hm
    · exact hb.1
    · exact hb.2.1
    · exact hb.2.2
  · have e1 : (localsAfterVertex env).success = v := by rw [hflags.1, hv]; rfl
    have e2 : (localsAfterFragment env).success = f := by rw [hflags.2.1, hf]; rfl
    have e3 : (localsAfterLink env).success = l := by rw [hflags.2.2, hl]; rfl
    rw [hst, hp, e1, e2, e3]
    simp [nv, nf, nl]
  · obtain ⟨e1, e2, e3, b1, b2, b3⟩ := written_checks env v f l dv df dl hv hf hl hdv hdf hdl
    have hp2 : (main fuel env).trace.filterMap printed =
        (if v = 0 then [Output.vertexCompilationFailed (glGetInfoLog 512 dv)] else []) ++
        (if f = 0 then [Output.fragmentCompilationFailed (glGetInfoLog 512 df)] else []) ++
        (if l = 0 then [Output.programLinkingFailed (glGetInfoLog 512 dl)] else []) := by
      rw [hp, e1, e2, e3]
      by_cases a : v = 0 <;> by_cases b : f = 0 <;> by_cases c : l = 0 <;>
        simp [a, b, c, b1, b2, b3]
    refine ⟨by rw [hr, e1, e2, e3], hp2, fun o ho => ?_⟩
    have hm := hmem o ho
    rw [hp2] at hm
    simp only [List.mem_append] at hm
    rcases hm with (hm | hm) | hm <;> split_ifs at hm <;> simp at hm <;>
      subst hm <;> exact glGetInfoLog_length_lt _

/-- C6 at concrete runs.  With a vertex shader that fails with a driver log of
600 characters and a link that fails with an empty log, the vertex and the
link diagnostics are printed, cut to the buffer, and no fragment diagnostic.
With a failing vertex shader and no fragment shader object, the fragment check
tests the flag left by the vertex check and prints the buffer left by it. -/
theorem C6_diagnostics_iff_failed_witness :
    (main 5 envBadVertex).trace.filterMap printed =
      [ Output.vertexCompilationFailed (glGetInfoLog 512 (List.replicate 600 (Char.ofNat 101))),
        Output.programLinkingFailed (glGetInfoLog 512 []) ] ∧
    (main 5 envNoFragment).trace.filterMap printed =
      [ Output.vertexCompilationFailed (glGetInfoLog 512 "abc".toList),
        Output.fragmentCompilationFailed (glGetInfoLog 512 "abc".toList) ] :=
  ⟨((C6_diagnostics_iff_failed envBadVertex 5 (by decide) (by decide) (by decide)).2.2.2.2.2.2.2
      0 1 0 (List.replicate 600 (Char.ofNat 101)) [] [] rfl rfl rfl rfl rfl rfl).2.1,
   (C6_diagnostics_iff_failed envNoFragment 5 (by decide) (by decide) (by decide)).2.1⟩

/-- C7: on a run that got past initialisation, the trace is a part that holds
the link and no release of a shader or of the program, then the release of the
vertex shader, then the release of the fragment shader, then a part in which
no call takes a shader handle.  So there are exactly two shader releases, one
for each handle, both after the link, and when the two handles differ each is
released once and taken by no later call. -/
theorem C7_shader_handles_released_once (env : Env) (fuel : Nat) (h1 : env.glfwInit ≠ 0)
    (h2 : env.window ≠ 0) (h3 : env.gladLoadGLLoader ≠ 0) :
    (∃ before after : List Call,
      (main fuel env).trace =
        before ++ [Call.glDeleteShader env.vertexShader, Call.glDeleteShader env.fragmentShader]
          ++ after ∧
      Call.glLinkProgram env.shaderProgram ∈ before ∧
      before.filter isShaderOrProgramDelete = [] ∧
      after.filterMap shaderArg = []) ∧
    (main fuel env).trace.filterMap deletedShader = [env.vertexShader, env.fragmentShader] ∧
    (env.vertexShader ≠ env.fragmentShader →
      (main fuel env).trace.count (Call.glDeleteShader env.vertexShader) = 1 ∧
      (main fuel env).trace.count (Call.glDeleteShader env.fragmentShader) = 1) := by
  have hloopS : (loopTrace env (frameLoop env fuel 0 false)).filterMap shaderArg = [] := by
    rw [List.filterMap_eq_nil_iff]
    intro c hc
    have := mem_loopTrace env fuel 0 false c hc
    simp [renderCalls] at this
    rcases this with h | h | h | h | h | h | h | h | h | h <;> simp [h, shaderArg]
  have hloopD : (loopTrace env (frameLoop env fuel 0 false)).filterMap deletedShader = [] := by
    rw [List.filterMap_eq_nil_iff]
    intro c hc
    have := mem_loopTrace env fuel 0 false c hc
    simp [renderCalls] at this
    rcases this with h | h | h | h | h | h | h | h | h | h <;> simp [h, deletedShader]
  have htD : (if (frameLoop env fuel 0 false).exited then teardownCalls env else []).filterMap
      deletedShader = [] := by
    split_ifs <;> simp [teardownCalls, deletedShader]
  have hD : (main fuel env).trace.filterMap deletedShader
      = [env.vertexShader, env.fragmentShader] := by
    rw [main_of_init env fuel h1 h2 h3]
    simp only [List.filterMap_append, hloopD, htD]
    simp only [setupCalls, shaderCalls_eq,
      bufferCalls, postLinkCalls, layoutCalls, windowCalls, contextCalls]
    split_ifs <;> simp [deletedShader]
  have hcount : ∀ (t : List Call) (s : Nat),
      t.count (Call.glDeleteShader s) = (t.filterMap deletedShader).count s := by
    intro t s
    induction t with
    | nil => rfl
    | cons c t ih =>
      cases c <;> simp_all [deletedShader, List.filterMap_cons, List.count_cons]
  refine ⟨⟨windowCalls ++ contextCalls env ++ bufferCalls env ++ shaderCalls env
      ++ [Call.glUseProgram env.shaderProgram],
    layoutCalls env ++ loopTrace env (frameLoop env fuel 0 false)
      ++ (if (frameLoop env fuel 0 false).exited then teardownCalls env else []),
    ?_, ?_, ?_, ?_⟩, hD, fun hne => ?_⟩
  · rw [main_of_init env fuel h1 h2 h3]
    simp [setupCalls, postLinkCalls]
  · simp only [shaderCalls_eq]
    split_ifs <;> simp
  · simp only [shaderCalls_eq, bufferCalls, windowCalls, contextCalls]
    split_ifs <;> simp [isShaderOrProgramDelete]
  · simp only [List.filterMap_append, hloopS]
    split_ifs <;> simp [layoutCalls, teardownCalls, shaderArg]
  · rw [hcount, hcount, hD]
    simp [List.count_cons, hne, Ne.symm hne]

/-- C7 at a concrete run with shader handles 1 and 2. -/
theorem C7_shader_handles_released_once_witness :
    (main 5 envClose).trace.count (Call.glDeleteShader 1) = 1 ∧
    (main 5 envClose).trace.count (Call.glDeleteShader 2) = 1 :=
  (C7_shader_handles_released_once envClose 5 (by decide) (by decide) (by decide)).2.2
    (by decide)

/-- C8, the claim as stated fails: in the run where Escape is pressed from the
start, iteration 0 sees Escape pressed and sets the close-request, and still
issues the clear call and the draw call. -/
theorem C8_escape_iteration_still_draws :
    envEscape.keyEscape 0 = GLFW_PRESS ∧
    (frameLoop envEscape 3 0 false).iterations =
      [[ .glfwGetKey 7 .GLFW_KEY_ESCAPE,
         .glfwSetWindowShouldClose 7 1,
         .glClearColor ⟨2550, 1⟩ ⟨2550, 1⟩ ⟨0, 1⟩ ⟨10, 1⟩,
         .glClear .GL_COLOR_BUFFER_BIT,
         .glUseProgram 3,
         .glBindVertexArray 1,
         .glDrawArrays .GL_TRIANGLES 0 6,
         .glfwSwapBuffers 7,
         .glfwPollEvents ]] := by
  refine ⟨rfl, ?_⟩
  simp [frameLoop, loopBody, processInput, renderCalls, envEscape, GLFW_PRESS, cTrue]

/-- C8, amended: when the close-request is set at the loop condition no
iteration runs (so no clear and no draw); every iteration that runs starts
with the Escape poll of `processInput` and then issues exactly one clear call
and one draw call, whether or not Escape was seen; an iteration that sees
Escape pressed sets the close-request right after the poll, before the clear
and the draw, and `processInput` returns with the close-request set. -/
theorem C8_poll_then_clear_and_draw (env : Env) (fuel : Nat) :
    (∀ i, (frameLoop env fuel i true).iterations = []) ∧
    (∀ k b, env.keyEscape k = GLFW_PRESS → (processInput env k b).2 = true) ∧
    (∀ k it, (frameLoop env fuel 0 false).iterations[k]? = some it →
      it.head? = some (Call.glfwGetKey env.window .GLFW_KEY_ESCAPE) ∧
      it.filter isClear = [Call.glClear .GL_COLOR_BUFFER_BIT] ∧
      it.filter isDraw = [Call.glDrawArrays .GL_TRIANGLES 0 6] ∧
      (env.keyEscape k = GLFW_PRESS →
        it = [ Call.glfwGetKey env.window .GLFW_KEY_ESCAPE,
               Call.glfwSetWindowShouldClose env.window cTrue ] ++ renderCalls env) ∧
      (env.keyEscape k ≠ GLFW_PRESS →
        it = [ Call.glfwGetKey env.window .GLFW_KEY_ESCAPE ] ++ renderCalls env)) := by
  refine ⟨fun i => frameLoop_iterations_of_set env fuel i,
    fun k b hk => by simp [processInput, hk], fun k it h => ?_⟩
  have hit := frameLoop_iteration_eq env fuel 0 false k it h
  simp only [Nat.zero_add] at hit
  subst hit
  have hcd := loopBody_clear_draw env k false
  have hc := loopBody_calls env k
  exact ⟨hcd.1, hcd.2.1, hcd.2.2, hc.1, hc.2⟩

/-- C8 amended at a concrete run: iteration 0 of the run with Escape pressed
has one clear and one draw. -/
theorem C8_poll_then_clear_and_draw_witness :
    ∃ it, (frameLoop envEscape 3 0 false).iterations[0]? = some it ∧
      it.filter isClear = [Call.glClear .GL_COLOR_BUFFER_BIT] ∧
      it.filter isDraw = [Call.glDrawArrays .GL_TRIANGLES 0 6] :=
  ⟨(loopBody envEscape 0 false).1, rfl,
    ((C8_poll_then_clear_and_draw envEscape 3).2.2 0 (loopBody envEscape 0 false).1 rfl).2.1,
    ((C8_poll_then_clear_and_draw envEscape 3).2.2 0 (loopBody envEscape 0 false).1 rfl).2.2.1⟩

/-- C9: every executed iteration issues exactly one draw call, which is
`glDrawArrays(GL_TRIANGLES, 0, 6)`, so the draw calls of the whole trace are
as many as the executed iterations and each requests 6 vertices; the trace
uploads (twice, before the loop) the array of the 9 floats of lines 61-63 in
36 bytes, laid out as 3 floats per vertex, that is 3 vertices; and every draw
call of the trace requests 3 more vertices than every upload of the trace
holds. -/
theorem C9_draw_call_per_iteration (env : Env) (fuel : Nat) (h1 : env.glfwInit ≠ 0)
    (h2 : env.window ≠ 0) (h3 : env.gladLoadGLLoader ≠ 0) :
    (∀ it ∈ (frameLoop env fuel 0 false).iterations,
      it.filter isDraw = [Call.glDrawArrays .GL_TRIANGLES 0 6]) ∧
    (main fuel env).trace.filter isDraw =
      List.replicate (frameLoop env fuel 0 false).iterations.length
        (Call.glDrawArrays .GL_TRIANGLES 0 6) ∧
    (∀ c ∈ (main fuel env).trace, isUpload c = true →
      c = Call.glBufferData .GL_ARRAY_BUFFER 36 vertices .GL_STATIC_DRAW) ∧
    (main fuel env).trace.filter isUpload =
      [ Call.glBufferData .GL_ARRAY_BUFFER 36
          [⟨-5, 1⟩, ⟨-5, 1⟩, ⟨0, 1⟩, ⟨5, 1⟩, ⟨-5, 1⟩, ⟨0, 1⟩, ⟨0, 1⟩, ⟨5, 1⟩, ⟨0, 1⟩]
          .GL_STATIC_DRAW,
        Call.glBufferData .GL_ARRAY_BUFFER 36
          [⟨-5, 1⟩, ⟨-5, 1⟩, ⟨0, 1⟩, ⟨5, 1⟩, ⟨-5, 1⟩, ⟨0, 1⟩, ⟨0, 1⟩, ⟨5, 1⟩, ⟨0, 1⟩]
          .GL_STATIC_DRAW ] ∧
    (main fuel env).trace.filterMap uploadedFloats =
      [ [⟨-5, 1⟩, ⟨-5, 1⟩, ⟨0, 1⟩, ⟨5, 1⟩, ⟨-5, 1⟩, ⟨0, 1⟩, ⟨0, 1⟩, ⟨5, 1⟩, ⟨0, 1⟩],
        [⟨-5, 1⟩, ⟨-5, 1⟩, ⟨0, 1⟩, ⟨5, 1⟩, ⟨-5, 1⟩, ⟨0, 1⟩, ⟨0, 1⟩, ⟨5, 1⟩, ⟨0, 1⟩] ] ∧
    Call.glVertexAttribPointer 0 3 .GL_FLOAT .GL_FALSE 12 0 ∈ (main fuel env).trace ∧
    (main fuel env).trace.filterMap drawCount =
      List.replicate (frameLoop env fuel 0 false).iterations.length 6 ∧
    (∀ d ∈ (main fuel env).trace.filterMap uploadedFloats, d.length = 9 ∧ d.length / 3 = 3) ∧
    (∀ n ∈ (main fuel env).trace.filterMap drawCount,
      ∀ d ∈ (main fuel env).trace.filterMap uploadedFloats, n = d.length / 3 + 3) ∧
    vertices = [⟨-5, 1⟩, ⟨-5, 1⟩, ⟨0, 1⟩, ⟨5, 1⟩, ⟨-5, 1⟩, ⟨0, 1⟩, ⟨0, 1⟩, ⟨5, 1⟩, ⟨0, 1⟩] ∧
    vertices.length = 9 ∧ vertexCount = 3 ∧ 6 = vertexCount + 3 := by
  have hsz : sizeofVertices = 36 := rfl
  have hvs : vertices =
      [⟨-5, 1⟩, ⟨-5, 1⟩, ⟨0, 1⟩, ⟨5, 1⟩, ⟨-5, 1⟩, ⟨0, 1⟩, ⟨0, 1⟩, ⟨5, 1⟩, ⟨0, 1⟩] := rfl
  have htD : (if (frameLoop env fuel 0 false).exited then teardownCalls env else []).filter
      isDraw = [] := by
    split_ifs <;> simp [teardownCalls, isDraw]
  have hdraw : (main fuel env).trace.filter isDraw =
      List.replicate (frameLoop env fuel 0 false).iterations.length
        (Call.glDrawArrays .GL_TRIANGLES 0 6) := by
    rw [main_of_init env fuel h1 h2 h3]
    simp only [List.filter_append, filter_isDraw_loopTrace, htD]
    simp only [setupCalls, shaderCalls_eq,
      bufferCalls, postLinkCalls, layoutCalls, windowCalls, contextCalls]
    split_ifs <;> simp [isDraw]
  have hup : (main fuel env).trace.filter isUpload =
      [ Call.glBufferData .GL_ARRAY_BUFFER 36 vertices .GL_STATIC_DRAW,
        Call.glBufferData .GL_ARRAY_BUFFER 36 vertices .GL_STATIC_DRAW ] := by
    rw [main_of_init env fuel h1 h2 h3]
    have hl := filter_loopTrace_eq_nil env fuel 0 false isUpload
      (by simp [renderCalls, isUpload])
    have ht : (if (frameLoop env fuel 0 false).exited then teardownCalls env else []).filter
        isUpload = [] := by
      split_ifs <;> simp [teardownCalls, isUpload]
    simp only [List.filter_append, hl, ht]
    simp only [setupCalls, shaderCalls_eq,
      bufferCalls, postLinkCalls, layoutCalls, windowCalls, contextCalls]
    split_ifs <;> simp [isUpload, hsz]
  have hfmU := filterMap_uploadedFloats
  have hfmD := filterMap_drawCount
  have hrep := filterMap_drawCount_replicate
  have hfloats : (main fuel env).trace.filterMap uploadedFloats = [vertices, vertices] := by
    rw [hfmU, hup]
    simp [uploadedFloats]
  have hcounts : (main fuel env).trace.filterMap drawCount =
      List.replicate (frameLoop env fuel 0 false).iterations.length 6 := by
    rw [hfmD, hdraw, hrep]
  refine ⟨fun it hit => ?_, hdraw, fun c hc hu => ?_, hup, hfloats, ?_, hcounts,
    fun d hd => ?_, fun n hn d hd => ?_, rfl, rfl, rfl, rfl⟩
  · obtain ⟨k, hk, rfl⟩ := List.getElem_of_mem hit
    have hget : (frameLoop env fuel 0 false).iterations[k]? =
        some ((frameLoop env fuel 0 false).iterations[k]) := List.getElem?_eq_getElem hk
    rw [frameLoop_iteration_eq env fuel 0 false k _ hget]
    exact (loopBody_clear_draw env (0 + k) false).2.2
  · have hmem : c ∈ (main fuel env).trace.filter isUpload := List.mem_filter.2 ⟨hc, hu⟩
    rw [hup] at hmem
    simpa using hmem
  · rw [main_of_init env fuel h1 h2 h3]
    simp [setupCalls, layoutCalls, componentsPerVertex, sizeofFloat]
  · rw [hfloats] at hd
    have hd2 : d = vertices := by simpa using hd
    subst hd2
    exact ⟨rfl, rfl⟩
  · rw [hfloats] at hd
    rw [hcounts] at hn
    have hd2 : d = vertices := by simpa using hd
    have hn2 : n = 6 := (List.mem_replicate.1 hn).2
    subst hd2 hn2
    rfl

/-- C9 at a concrete run: two iterations, two draw calls of 6 vertices each,
and uploads of 9 floats. -/
theorem C9_draw_call_per_iteration_witness :
    (main 5 envClose).trace.filter isDraw =
      List.replicate (frameLoop envClose 5 0 false).iterations.length
        (Call.glDrawArrays .GL_TRIANGLES 0 6) ∧
    (frameLoop envClose 5 0 false).iterations.length = 2 ∧
    (main 5 envClose).trace.filterMap drawCount =
      List.replicate (frameLoop envClose 5 0 false).iterations.length 6 ∧
    (main 5 envClose).trace.filterMap uploadedFloats =
      [ [⟨-5, 1⟩, ⟨-5, 1⟩, ⟨0, 1⟩, ⟨5, 1⟩, ⟨-5, 1⟩, ⟨0, 1⟩, ⟨0, 1⟩, ⟨5, 1⟩, ⟨0, 1⟩],
        [⟨-5, 1⟩, ⟨-5, 1⟩, ⟨0, 1⟩, ⟨5, 1⟩, ⟨-5, 1⟩, ⟨0, 1⟩, ⟨0, 1⟩, ⟨5, 1⟩, ⟨0, 1⟩] ] :=
  ⟨(C9_draw_call_per_iteration envClose 5 (by decide) (by decide) (by decide)).2.1, by decide,
   (C9_draw_call_per_iteration envClose 5 (by decide) (by decide) (by decide)).2.2.2.2.2.2.1,
   (C9_draw_call_per_iteration envClose 5 (by decide) (by decide) (by decide)).2.2.2.2.1⟩

/-- C10, the claim as stated fails: in the run that the user closes, the upload
`glBufferData` occurs twice in the trace, not once. -/
theorem C10_upload_occurs_twice :
    (main 5 envClose).trace.filter isUpload =
      [ .glBufferData .GL_ARRAY_BUFFER 36 vertices .GL_STATIC_DRAW,
        .glBufferData .GL_ARRAY_BUFFER 36 vertices .GL_STATIC_DRAW ] ∧
    ((main 5 envClose).trace.filter isUpload).length ≠ 1 := by
  have h : (main 5 envClose).trace.filter isUpload =
      [ .glBufferData .GL_ARRAY_BUFFER 36 vertices .GL_STATIC_DRAW,
        .glBufferData .GL_ARRAY_BUFFER 36 vertices .GL_STATIC_DRAW ] := by rfl
  exact ⟨h, by rw [h]; decide⟩

/-- C10, amended: on every run that reaches the frame loop, the upload of
`vertices` to the buffer occurs exactly twice (lines 69 and 140), both times
before the first evaluation of the loop condition, and never inside the loop
or after it. -/
theorem C10_upload_twice_before_loop (env : Env) (fuel : Nat) (h1 : env.glfwInit ≠ 0)
    (h2 : env.window ≠ 0) (h3 : env.gladLoadGLLoader ≠ 0) :
    (main fuel env).trace =
      (windowCalls ++ contextCalls env ++ setupCalls env) ++
      (loopTrace env (frameLoop env fuel 0 false)
        ++ (if (frameLoop env fuel 0 false).exited then teardownCalls env else [])) ∧
    (windowCalls ++ contextCalls env ++ setupCalls env).filter isUpload =
      [ .glBufferData .GL_ARRAY_BUFFER 36 vertices .GL_STATIC_DRAW,
        .glBufferData .GL_ARRAY_BUFFER 36 vertices .GL_STATIC_DRAW ] ∧
    (windowCalls ++ contextCalls env ++ setupCalls env).filter isLoopCondition = [] ∧
    (loopTrace env (frameLoop env fuel 0 false)
      ++ (if (frameLoop env fuel 0 false).exited then teardownCalls env else [])).filter
        isUpload = [] ∧
    (0 < fuel →
      (loopTrace env (frameLoop env fuel 0 false)).head?
        = some (Call.glfwWindowShouldClose env.window)) := by
  have hsz : sizeofVertices = 36 := rfl
  refine ⟨?_, ?_, ?_, ?_, fun hf => ?_⟩
  · rw [main_of_init env fuel h1 h2 h3]
    simp only [List.append_assoc]
  · simp only [setupCalls, shaderCalls_eq,
      bufferCalls, postLinkCalls, layoutCalls, windowCalls, contextCalls]
    split_ifs <;> simp [isUpload, hsz]
  · simp only [setupCalls, shaderCalls_eq,
      bufferCalls, postLinkCalls, layoutCalls, windowCalls, contextCalls]
    split_ifs <;> simp [isLoopCondition]
  · have hl := filter_loopTrace_eq_nil env fuel 0 false isUpload
      (by simp [renderCalls, isUpload])
    simp only [List.filter_append, hl]
    split_ifs <;> simp [teardownCalls, isUpload]
  · obtain ⟨m, rfl⟩ : ∃ m, fuel = m + 1 := ⟨fuel - 1, by omega⟩
    rw [loopTrace_open]
    simp

/-- C10 amended at a concrete run. -/
theorem C10_upload_twice_before_loop_witness :
    (windowCalls ++ contextCalls envClose ++ setupCalls envClose).filter isUpload =
      [ .glBufferData .GL_ARRAY_BUFFER 36 vertices .GL_STATIC_DRAW,
        .glBufferData .GL_ARRAY_BUFFER 36 vertices .GL_STATIC_DRAW ] :=
  (C10_upload_twice_before_loop envClose 5 (by decide) (by decide) (by decide)).2.1

end OpenGlStart
